import Mathlib

/-!
# Aexis core — shallow embedding and verification

This file embeds the core of the `aexis` pod-transportation simulator in
Lean 4 and settles the specification claims against it.  Every definition
is translated from the Python source under `src/aexis/core/`:

* `model.py`     — `Coordinate`, `EdgeSegment`, `LocationDescriptor`, enums;
* `station.py`   — the station queues, the claim system, congestion;
* `routing.py`   — the `RoutingProvider` fallback chain, the AI cool-down;
* `network.py`   — `NetworkContext.spawn_pod_at_random_edge`;
* `pod.py`       — the pod state machine and the `update(dt)` physics tick,
                   with the type-specific pickup/delivery logic.

Modelling conventions:

* Python `float` values are embedded as `ℚ`; the claim logic (clamping,
  comparisons, accumulation) is exact arithmetic, so `ℚ` tracks the source
  computations faithfully for the inputs the theorems use.
* Python `dict` entries are structures carrying the fields the core reads;
  fields that no claim logic touches (timestamps, priorities, special
  needs) are omitted.
* Python truthiness of `entry.get("claimed_by")` is embedded explicitly:
  both a missing key (`none`) and the empty string count as "not claimed".
* Fire-and-forget publishes are collected in an event list; `await`ed
  helper calls run to completion in order, exactly as the single
  cooperative task executes them in the source.
* `random.choice` / `random.uniform` are passed in as explicit parameters.
-/

namespace Aexis

/-! ## model.py — geometry -/

/-- 2D coordinate in network space (`model.py`, `Coordinate`). -/
structure Coordinate where
  x : ℚ
  y : ℚ
deriving DecidableEq, Repr

/-- `Coordinate.interpolate` (`model.py` lines 276–282): interpolate between
two coordinates, with `t` clamped to `[0, 1]`. -/
def Coordinate.interpolate (self other : Coordinate) (t : ℚ) : Coordinate :=
  let t := max 0 (min 1 t)
  { x := self.x + (other.x - self.x) * t
    y := self.y + (other.y - self.y) * t }

/-- Network edge segment between two nodes (`model.py`, `EdgeSegment`).
`length` is the cached Euclidean distance field; it is stored data in the
source (set in `__post_init__` when constructed as `0.0`), so it is a plain
field here. -/
structure EdgeSegment where
  segment_id : String
  start_node : String
  end_node : String
  start_coord : Coordinate
  end_coord : Coordinate
  length : ℚ
deriving DecidableEq, Repr

/-- `EdgeSegment.get_point_at_distance` (`model.py` lines 300–305): the
coordinate at `distance` along the segment, parameter clamped to `[0,1]`;
a zero-length segment returns `start_coord` without dividing. -/
def EdgeSegment.get_point_at_distance (self : EdgeSegment) (distance : ℚ) : Coordinate :=
  if self.length = 0 then self.start_coord
  else
    let t := min 1 (max 0 (distance / self.length))
    self.start_coord.interpolate self.end_coord t

/-- Pod lifecycle states (`model.py`, `PodStatus`). -/
inductive PodStatus where
  | idle
  | loading
  | en_route
  | unloading
  | maintenance
deriving DecidableEq, Repr

/-- Station lifecycle states (`model.py`, `StationStatus`). -/
inductive StationStatus where
  | operational
  | congested
  | maintenance
  | offline
deriving DecidableEq, Repr

/-- Location tag of a `LocationDescriptor` (the `location_type` string field,
which the source only ever sets to `"station"` or `"edge"`). -/
inductive LocType where
  | station
  | edge
deriving DecidableEq, Repr

/-- `LocationDescriptor` (`model.py` lines 308–321), with the source's
defaults for the optional fields. -/
structure LocationDescriptor where
  location_type : LocType
  node_id : String := ""
  edge_id : String := ""
  coordinate : Coordinate := ⟨0, 0⟩
  distance_on_edge : ℚ := 0
deriving DecidableEq, Repr

/-! ## station.py — queues, claims, congestion -/

/-- A passenger queue entry (`station.py`, `_handle_passenger_arrival`): the
dict appended to `passenger_queue`.  Only the fields the claim/pickup logic
reads are kept (`priority`, `group_size`, timestamps are never read by it).
`claimed_by` is absent until a claim sets it. -/
structure PassengerEntry where
  passenger_id : String
  destination : String
  claimed_by : Option String := none
deriving DecidableEq, Repr

/-- A cargo queue entry (`station.py`, `_handle_cargo_request`). -/
structure CargoEntry where
  request_id : String
  destination : String
  weight : ℚ
  claimed_by : Option String := none
deriving DecidableEq, Repr

/-- Python truthiness of `entry.get("claimed_by")`: `None` (key absent) and
the empty string are both falsy. -/
def claimedTruthy : Option String → Bool
  | none => false
  | some s => s ≠ ""

/-- Generic claim walk shared by `claim_passenger` and `claim_cargo`
(`station.py` lines 414–458).  Walks the queue in order; at the first entry
whose key matches `eid`: if `entry.get("claimed_by")` is truthy return
`false` leaving the queue unchanged, else set `claimed_by = pod_id` and
return `true`.  If no entry matches, return `false`. -/
def claimEntry {α : Type} (key : α → String) (getC : α → Option String)
    (setC : α → String → α) (eid pod_id : String) :
    List α → Bool × List α
  | [] => (false, [])
  | e :: rest =>
    if key e = eid then
      if claimedTruthy (getC e) then (false, e :: rest)
      else (true, setC e pod_id :: rest)
    else
      let r := claimEntry key getC setC eid pod_id rest
      (r.1, e :: r.2)

/-- `Station.claim_passenger` (`station.py` lines 414–435), acting on the
station's `passenger_queue`; returns the flag and the updated queue. -/
def claim_passenger (queue : List PassengerEntry) (passenger_id pod_id : String) :
    Bool × List PassengerEntry :=
  claimEntry PassengerEntry.passenger_id PassengerEntry.claimed_by
    (fun e p => { e with claimed_by := some p }) passenger_id pod_id queue

/-- `Station.claim_cargo` (`station.py` lines 437–458). -/
def claim_cargo (queue : List CargoEntry) (request_id pod_id : String) :
    Bool × List CargoEntry :=
  claimEntry CargoEntry.request_id CargoEntry.claimed_by
    (fun e p => { e with claimed_by := some p }) request_id pod_id queue

/-- `Station.get_pending_passengers` with no destination filter
(`station.py` lines 386–398): entries whose `claimed_by` is falsy. -/
def get_pending_passengers (queue : List PassengerEntry) : List PassengerEntry :=
  queue.filter (fun p => ¬ claimedTruthy p.claimed_by)

/-- `Station.get_pending_cargo` with no destination filter
(`station.py` lines 400–412). -/
def get_pending_cargo (queue : List CargoEntry) : List CargoEntry :=
  queue.filter (fun c => ¬ claimedTruthy c.claimed_by)

/-- Station state (`station.py`, `Station.__init__`).  Wait-time metrics are
omitted (wall-clock datetime bookkeeping that no claim reads). -/
structure StationState where
  station_id : String
  status : StationStatus := .operational
  passenger_queue : List PassengerEntry := []
  cargo_queue : List CargoEntry := []
  loading_bays : ℚ := 4
  available_bays : ℚ := 4
  processing_rate : ℚ := 5/2
  connected_stations : List String := []
  congestion_level : ℚ := 0
  total_passengers_processed : ℕ := 0
  total_cargo_processed : ℕ := 0
deriving DecidableEq, Repr

/-- `Station._update_congestion_level` (`station.py` lines 270–290). -/
def update_congestion_level (st : StationState) : StationState :=
  let passenger_congestion := min 1 ((st.passenger_queue.length : ℚ) / 20)
  let cargo_congestion := min 1 ((st.cargo_queue.length : ℚ) / 10)
  let bay_utilization := 1 - st.available_bays / st.loading_bays
  let level := passenger_congestion * (4/10) + cargo_congestion * (3/10)
    + bay_utilization * (3/10)
  let status :=
    if level > 8/10 then StationStatus.congested
    else if level < 3/10 then StationStatus.operational
    else st.status
  { st with congestion_level := level, status := status }

/-- The payload of a published `CongestionAlert` event
(`station.py`, `_publish_congestion_alert`; clear-time arithmetic on wall
clocks is kept as the minutes quantity). -/
structure CongestionAlertData where
  station_id : String
  congestion_level : ℚ
  queue_length : ℕ
  affected_routes : List String
  estimated_clear_minutes : ℚ
  severity : String
deriving DecidableEq, Repr

/-- `Station._publish_congestion_alert` (`station.py` lines 311–349):
returns the alert it publishes, or `none` when the guard
`congestion_level < 0.7` fires. -/
def publish_congestion_alert (st : StationState) : Option CongestionAlertData :=
  if st.congestion_level < 7/10 then none
  else
    let affected_routes := st.connected_stations.map
      (fun s => st.station_id ++ "->" ++ s)
    let total_items : ℚ := st.passenger_queue.length + st.cargo_queue.length
    let severity :=
      if st.congestion_level > 9/10 then "critical"
      else if st.congestion_level > 8/10 then "high"
      else "medium"
    some
      { station_id := st.station_id
        congestion_level := st.congestion_level
        queue_length := st.passenger_queue.length + st.cargo_queue.length
        affected_routes := affected_routes
        estimated_clear_minutes := total_items / st.processing_rate
        severity := severity }

/-- `Station._handle_passenger_arrival` (`station.py` lines 146–174) for an
event addressed to this station: append the fresh entry, recompute
congestion, and publish an alert when the level exceeds `0.7`. -/
def handle_passenger_arrival (st : StationState) (entry : PassengerEntry) :
    StationState × Option CongestionAlertData :=
  let st := { st with passenger_queue := st.passenger_queue ++ [entry] }
  let st := update_congestion_level st
  (st, if st.congestion_level > 7/10 then publish_congestion_alert st else none)

/-- `Station._handle_cargo_request` (`station.py` lines 176–209). -/
def handle_cargo_request (st : StationState) (entry : CargoEntry) :
    StationState × Option CongestionAlertData :=
  let st := { st with cargo_queue := st.cargo_queue ++ [entry] }
  let st := update_congestion_level st
  (st, if st.congestion_level > 7/10 then publish_congestion_alert st else none)

/-- `Station._handle_passenger_pickup` (`station.py` lines 211–231):
remove every entry with the picked-up id and recompute congestion
(no alert is published on this path). -/
def handle_passenger_pickup (st : StationState) (passenger_id : String) :
    StationState × Option CongestionAlertData :=
  let st := { st with
    passenger_queue := st.passenger_queue.filter
      (fun p => p.passenger_id ≠ passenger_id)
    total_passengers_processed := st.total_passengers_processed + 1 }
  (update_congestion_level st, none)

/-- `Station._handle_cargo_loading` (`station.py` lines 233–249). -/
def handle_cargo_loading (st : StationState) (request_id : String) :
    StationState × Option CongestionAlertData :=
  let st := { st with
    cargo_queue := st.cargo_queue.filter (fun c => c.request_id ≠ request_id)
    total_cargo_processed := st.total_cargo_processed + 1 }
  (update_congestion_level st, none)

/-- `Station._handle_capacity_update` (`station.py` lines 251–268):
`parameters.get("max_pods", self.loading_bays)` and likewise for the rate;
no congestion recomputation and no alert on this path. -/
def handle_capacity_update (st : StationState) (max_pods processing_rate : Option ℚ) :
    StationState × Option CongestionAlertData :=
  ({ st with
      loading_bays := max_pods.getD st.loading_bays
      processing_rate := processing_rate.getD st.processing_rate }, none)

/-- A queue/capacity mutation on a station, covering the handler set the
congestion claims quantify over. -/
inductive StationOp where
  | passengerArrival (entry : PassengerEntry)
  | cargoRequest (entry : CargoEntry)
  | passengerPickup (passenger_id : String)
  | cargoLoading (request_id : String)
  | capacityUpdate (max_pods processing_rate : Option ℚ)
deriving Repr

/-- Dispatch of a `StationOp` to its source handler. -/
def applyStationOp (st : StationState) : StationOp → StationState × Option CongestionAlertData
  | .passengerArrival e => handle_passenger_arrival st e
  | .cargoRequest e => handle_cargo_request st e
  | .passengerPickup pid => handle_passenger_pickup st pid
  | .cargoLoading rid => handle_cargo_loading st rid
  | .capacityUpdate mp pr => handle_capacity_update st mp pr

/-! ## routing.py — provider chain and AI cool-down -/

/-- `Route` (`model.py` lines 212–219), with the fields the routing layer
populates. -/
structure Route where
  route_id : String
  stations : List String
  estimated_duration : ℤ := 0
  distance : ℚ := 0
deriving DecidableEq, Repr

/-- `DecisionContext` (`model.py` lines 222–236), restricted to the fields
the routing layer reads. -/
structure DecisionContext where
  pod_id : String
  current_location : String
  capacity_available : ℤ
  weight_available : ℚ
deriving DecidableEq, Repr

/-- The exception classes `RoutingProvider.route` catches and logs before
trying the next router (`routing.py` lines 63–93). -/
inductive RouterFailure where
  | connectionError
  | timeoutError
  | otherError
deriving DecidableEq, Repr

/-- The outcome of one `router.route(context)` call: a raised exception, or
a returned value — which, being a Python function, may be `None` (falsy) or
an actual `Route` (always truthy). -/
inductive RouterOutcome where
  | failure (e : RouterFailure)
  | success (r : Option Route)
deriving DecidableEq, Repr

/-- A `Router` strategy is consumed only through its `route(context)`
contract (`routing.py`, class `Router`), so it is embedded as a function. -/
def Router : Type := DecisionContext → RouterOutcome

/-- The two distinct `ValueError`s `RoutingProvider.route` raises
(`routing.py` lines 55–57 and 95). -/
inductive ProviderError where
  | noRoutersConfigured
  | allStrategiesFailed
deriving DecidableEq, Repr

/-- The fallback scan of `RoutingProvider.route` over the configured list
(`routing.py` lines 58–95): exceptions and falsy results move on to the
next router; the first truthy route is returned; an exhausted list raises
`All routing strategies failed`. -/
def providerScan (ctx : DecisionContext) : List Router → Except ProviderError Route
  | [] => .error .allStrategiesFailed
  | router :: rest =>
    match router ctx with
    | .success (some r) => .ok r
    | .success none => providerScan ctx rest
    | .failure _ => providerScan ctx rest

/-- `RoutingProvider.route` (`routing.py` lines 53–95), including the
empty-chain guard. -/
def RoutingProvider.route (routers : List Router) (ctx : DecisionContext) :
    Except ProviderError Route :=
  if routers.isEmpty then .error .noRoutersConfigured
  else providerScan ctx routers

/-- `Decision` (`model.py` lines 239–248), fields the AI path reads. -/
structure Decision where
  route : List String
  estimated_duration : ℤ
  confidence : ℚ
deriving DecidableEq, Repr

/-- The dict returned by `RoutingStrategy.calculate_optimal_route`
(`routing.py`, `OfflineRoutingStrategy.calculate_optimal_route`). -/
structure RouteData where
  route : List String
  duration : ℤ
  distance : ℚ
  confidence : ℚ
deriving DecidableEq, Repr

/-- The external AI decision-provider collaborator, consumed only through
`is_available()` / `make_decision(context)` (`ai_provider.py` contract;
spec §6).  A raised connection/timeout/parse error is the `Except.error`
case. -/
structure AIProviderContract where
  is_available : Bool
  make_decision : DecisionContext → Except Unit Decision

/-- Mutable state of `AIDecisionEngine` (`routing.py` lines 245–253).
`last_failure` is the wall-clock minute of the last failure. -/
structure AIEngineState where
  failure_count : ℕ := 0
  last_failure : Option ℚ := none
  decision_history : List Decision := []
deriving Repr

/-- `AIDecisionEngine._should_use_ai` (`routing.py` lines 268–279): no AI
when the provider is unavailable, or within the 30-minute retry window
after the last failure. -/
def should_use_ai (p : AIProviderContract) (e : AIEngineState) (now : ℚ) : Bool :=
  if ¬ p.is_available then false
  else
    match e.last_failure with
    | none => true
    | some t => ¬ (now - t < 30)

/-- `AIDecisionEngine._record_success` (`routing.py` lines 281–290). -/
def record_success (e : AIEngineState) (d : Decision) : AIEngineState :=
  let history := e.decision_history ++ [d]
  let history := if history.length > 100 then history.drop (history.length - 50) else history
  { e with decision_history := history, failure_count := 0, last_failure := none }

/-- `AIDecisionEngine._record_failure` (`routing.py` lines 292–296). -/
def record_failure (e : AIEngineState) (now : ℚ) : AIEngineState :=
  { e with failure_count := e.failure_count + 1, last_failure := some now }

/-- `AIDecisionEngine.make_decision` (`routing.py` lines 255–266),
instrumented with whether the external provider was actually invoked.
The guard `raise ValueError("AI unavailable - use fallback")` fires before
the `try`, so a cool-down rejection leaves the engine state untouched. -/
def engine_make_decision (p : AIProviderContract) (e : AIEngineState)
    (ctx : DecisionContext) (now : ℚ) :
    Except Unit Decision × AIEngineState × Bool :=
  if ¬ should_use_ai p e now then (.error (), e, false)
  else
    match p.make_decision ctx with
    | .ok d => (.ok d, record_success e d, true)
    | .error err => (.error err, record_failure e now, true)

/-- `AIRouter.route` (`routing.py` lines 320–341): try the engine, and on
any failure fall back internally to `fallback_strategy.calculate_optimal_route`
(injected `RoutingStrategy`; `OfflineRoutingStrategy` by default).  Returns
the route, the new engine state, and whether the AI provider was invoked. -/
def AIRouter.route (p : AIProviderContract) (fallback : DecisionContext → RouteData)
    (e : AIEngineState) (ctx : DecisionContext) (now : ℚ) :
    Route × AIEngineState × Bool :=
  match engine_make_decision p e ctx now with
  | (.ok d, e', invoked) =>
    ({ route_id := "ai", stations := d.route, estimated_duration := d.estimated_duration,
       distance := 0 }, e', invoked)
  | (.error _, e', invoked) =>
    let rd := fallback ctx
    ({ route_id := "ai", stations := rd.route, estimated_duration := rd.duration,
       distance := rd.distance }, e', invoked)

/-- A sequence of route requests against one `AIRouter`: fold
`AIRouter.route` over `(context, now)` pairs, collecting each returned
route and the invoked flag. -/
def AIRouter.runRequests (p : AIProviderContract) (fallback : DecisionContext → RouteData)
    (e : AIEngineState) : List (DecisionContext × ℚ) → List (Route × Bool) × AIEngineState
  | [] => ([], e)
  | (ctx, now) :: rest =>
    let (r, e', invoked) := AIRouter.route p fallback e ctx now
    let (rs, ef) := AIRouter.runRequests p fallback e' rest
    ((r, invoked) :: rs, ef)

/-- The `no available requests` early branch of
`OfflineRoutingStrategy.calculate_optimal_route` (`routing.py` lines
106–113), used as a concrete injected fallback strategy in witnesses. -/
def offline_empty_branch (ctx : DecisionContext) : RouteData :=
  { route := [ctx.current_location], duration := 0, distance := 0, confidence := 8/10 }

/-! ## network.py — random edge-point sampling -/

/-- A Python value flowing through the `spawn_pod_at_random_edge` return
tuple, so that tuple arity and iterable unpacking can be stated. -/
inductive PyVal where
  | str (s : String)
  | coord (c : Coordinate)
  | rat (q : ℚ)
deriving DecidableEq, Repr

/-- The slice of `NetworkContext` state that `spawn_pod_at_random_edge`
reads (`network.py`, `__init__`): insertion-ordered maps embedded as
association lists. -/
structure NetworkCtx where
  station_positions : List (String × Coordinate)
  edges : List (String × EdgeSegment)
deriving Repr

/-- `NetworkContext.spawn_pod_at_random_edge` (`network.py` lines 167–188),
returned as the list of components of the Python tuple.  Randomness is
explicit: `choice` selects the edge from the key list
(`random.choice`), and `u ∈ [0,1]` drives
`random.uniform(0.1*length, 0.9*length)`. -/
def spawn_pod_at_random_edge (net : NetworkCtx) (choice : ℕ) (u : ℚ) : List PyVal :=
  if net.edges.isEmpty then
    let station_id :=
      match net.station_positions with
      | [] => "station_001"
      | (sid, _) :: _ => sid
    let pos := ((net.station_positions.lookup station_id).getD ⟨0, 0⟩)
    [.str station_id, .coord pos]
  else
    let keys := net.edges.map Prod.fst
    let edge_id := keys.getD (choice % keys.length) ""
    let edge := ((net.edges.lookup edge_id).getD
      ⟨"", "", "", ⟨0, 0⟩, ⟨0, 0⟩, 0⟩)
    let lo := (1/10) * edge.length
    let hi := (9/10) * edge.length
    let distance_on_edge := lo + u * (hi - lo)
    let coord := edge.get_point_at_distance distance_on_edge
    [.str edge_id, .coord coord]

/-- Python tuple unpacking `a, b, c = expr` of an iterable: succeeds only
when the iterable has exactly three items, otherwise raises `ValueError`
(this is the destructuring `AexisSystem._create_pods` performs at
`system.py` line 663). -/
def unpackThree : List PyVal → Except String (PyVal × PyVal × PyVal)
  | [a, b, c] => .ok (a, b, c)
  | l =>
    if l.length < 3 then .error "ValueError: not enough values to unpack"
    else .error "ValueError: too many values to unpack"

/-! ## pod.py — state machine, movement integrator, pickup/delivery -/

/-- Pod-published events.  Payload fields other than the identifying id are
omitted: no claim reasons about them, only about which events appear. -/
inductive PodEvent where
  | podPositionUpdate
  | podStatusUpdate
  | podArrival
  | passengerPickedUp (passenger_id : String)
  | passengerDelivered (passenger_id : String)
  | cargoLoaded (request_id : String)
  | cargoDelivered (request_id : String)
deriving DecidableEq, Repr

/-- Onboard manifest entry of a `PassengerPod` (`pod.py` lines 756–761). -/
structure OnboardPassenger where
  passenger_id : String
  destination : String
deriving DecidableEq, Repr

/-- Onboard manifest entry of a `CargoPod` (`pod.py` lines 963–968). -/
structure OnboardCargo where
  request_id : String
  destination : String
  weight : ℚ
deriving DecidableEq, Repr

/-- Per-type pod data: `PassengerPod` carries `capacity`/`passengers`,
`CargoPod` carries `weight_capacity`/`current_weight`/`cargo`.  The
subtype tag selects the overridden `_handle_station_arrival`. -/
inductive PodPayload where
  | passenger (capacity : ℕ) (passengers : List OnboardPassenger)
  | cargo (weight_capacity current_weight : ℚ) (cargo : List OnboardCargo)
deriving DecidableEq, Repr

/-- An entry of `pod._available_requests`, as read by the legacy
no-station-reference pickup fallback (`pod.py` lines 727–728 and 928–932):
a request dict with `origin`, `type`, the id fields and the fields the
manifest copies. -/
structure RequestDict where
  origin : String
  rtype : String
  passenger_id : String := ""
  request_id : String := ""
  destination : String := ""
  weight : ℚ := 0
deriving DecidableEq, Repr

/-- Pod state (`pod.py`, `Pod.__init__` plus the subclass fields).
`stations` is the injected reference to the system's station dict;
`network_positions` stands for the `NetworkContext` singleton's
`station_positions` that `_handle_route_completion` consults. -/
structure PodState where
  pod_id : String
  status : PodStatus
  location_descriptor : LocationDescriptor
  route_queue : List EdgeSegment
  current_segment : Option EdgeSegment
  segment_progress : ℚ
  speed : ℚ
  current_route : Option Route
  available_requests : List RequestDict
  stations : List (String × StationState)
  network_positions : List (String × Coordinate)
  payload : PodPayload
deriving DecidableEq, Repr

/-- Replace the station stored under `sid` (the in-place mutation of the
shared `Station` object seen through the pod's `_stations` dict). -/
def updateStationMap (m : List (String × StationState)) (sid : String)
    (st : StationState) : List (String × StationState) :=
  m.map (fun p => if p.1 = sid then (sid, st) else p)

/-- The claim loop of `PassengerPod._execute_passenger_pickup`
(`pod.py` lines 736–740): claim each candidate in order against the live
queue, keeping the ones whose claim succeeded.  Returns the mutated queue
and the successful pickups in order. -/
def claimCandidates (pod_id : String) :
    List PassengerEntry → List PassengerEntry →
    List PassengerEntry × List PassengerEntry
  | queue, [] => (queue, [])
  | queue, c :: cs =>
    let r := claim_passenger queue c.passenger_id pod_id
    let rest := claimCandidates pod_id r.2 cs
    if r.1 then (rest.1, c :: rest.2) else (rest.1, rest.2)

/-- `PassengerPod._execute_passenger_pickup` (`pod.py` lines 713–774).
The `await asyncio.sleep(...)` loading delay completes within the awaited
call, so the returned status is the `EN_ROUTE` set after it; the
`PodStatusUpdate` published while `LOADING` appears in the event list. -/
def execute_passenger_pickup (pod : PodState) (station_id : String) :
    PodState × List PodEvent :=
  match pod.payload with
  | .cargo _ _ _ => (pod, [])
  | .passenger capacity passengers =>
    let remaining : ℤ := (capacity : ℤ) - passengers.length
    if remaining ≤ 0 then (pod, [])
    else
      match pod.stations.lookup station_id with
      | none =>
        -- legacy fallback: no claim calls and no capacity truncation
        let pickups := pod.available_requests.filter
          (fun r => r.origin = station_id ∧ r.rtype = "passenger")
        if pickups.isEmpty then (pod, [])
        else
          let boarded := pickups.map
            (fun r => OnboardPassenger.mk r.passenger_id r.destination)
          ({ pod with payload := .passenger capacity (passengers ++ boarded)
                      status := .en_route },
            .podStatusUpdate :: pickups.map (fun r => .passengerPickedUp r.passenger_id))
      | some stn =>
        let pending := get_pending_passengers stn.passenger_queue
        let candidates := pending.take remaining.toNat
        let claimed := claimCandidates pod.pod_id stn.passenger_queue candidates
        let stn' := { stn with passenger_queue := claimed.1 }
        let pod := { pod with stations := updateStationMap pod.stations station_id stn' }
        if claimed.2.isEmpty then (pod, [])
        else
          let boarded := claimed.2.map
            (fun p => OnboardPassenger.mk p.passenger_id p.destination)
          ({ pod with payload := .passenger capacity (passengers ++ boarded)
                      status := .en_route },
            .podStatusUpdate :: claimed.2.map (fun p => .passengerPickedUp p.passenger_id))

/-- `PassengerPod._execute_passenger_delivery` (`pod.py` lines 776–815):
`passengers.remove(p)` for every matching entry amounts to dropping all
entries whose destination is this station. -/
def execute_passenger_delivery (pod : PodState) (station_id : String) :
    PodState × List PodEvent :=
  match pod.payload with
  | .cargo _ _ _ => (pod, [])
  | .passenger capacity passengers =>
    let delivered := passengers.filter (fun p => p.destination = station_id)
    if delivered.isEmpty then (pod, [])
    else
      ({ pod with
          payload := .passenger capacity
            (passengers.filter (fun p => p.destination ≠ station_id))
          status := .en_route },
        .podStatusUpdate :: delivered.map (fun p => .passengerDelivered p.passenger_id))

/-- The view of a pending cargo request inside the loading loop: the dict
fields `CargoPod._execute_cargo_pickup` reads from either a station queue
entry or a legacy `_available_requests` entry. -/
structure CargoReqView where
  request_id : String
  destination : String
  weight : ℚ
deriving DecidableEq, Repr

/-- The loading loop of `CargoPod._execute_cargo_pickup` (`pod.py` lines
951–979): skip non-positive weights; skip items that would exceed
`weight_capacity`; when a station reference exists, claim atomically and
skip on a failed claim.  Returns the loaded manifest entries, their
events, the mutated station queue (when present) and the total loaded
weight. -/
def cargoLoadLoop (pod_id : String) (weight_capacity current_weight : ℚ) :
    List CargoReqView → Option (List CargoEntry) → ℚ →
    List OnboardCargo × List PodEvent × Option (List CargoEntry) × ℚ
  | [], queue, loaded => ([], [], queue, loaded)
  | req :: rest, queue, loaded =>
    if req.weight ≤ 0 then
      cargoLoadLoop pod_id weight_capacity current_weight rest queue loaded
    else if current_weight + loaded + req.weight > weight_capacity then
      cargoLoadLoop pod_id weight_capacity current_weight rest queue loaded
    else
      match queue with
      | some q =>
        let r := claim_cargo q req.request_id pod_id
        if r.1 then
          let rec' := cargoLoadLoop pod_id weight_capacity current_weight rest
            (some r.2) (loaded + req.weight)
          (OnboardCargo.mk req.request_id req.destination req.weight :: rec'.1,
            .cargoLoaded req.request_id :: rec'.2.1, rec'.2.2)
        else
          cargoLoadLoop pod_id weight_capacity current_weight rest (some r.2) loaded
      | none =>
        -- `if station and not station.claim_cargo(...)`: no station, no claim
        let rec' := cargoLoadLoop pod_id weight_capacity current_weight rest
          none (loaded + req.weight)
        (OnboardCargo.mk req.request_id req.destination req.weight :: rec'.1,
          .cargoLoaded req.request_id :: rec'.2.1, rec'.2.2)

/-- `CargoPod._execute_cargo_pickup` (`pod.py` lines 914–995). -/
def execute_cargo_pickup (pod : PodState) (station_id : String) :
    PodState × List PodEvent :=
  match pod.payload with
  | .passenger _ _ => (pod, [])
  | .cargo weight_capacity current_weight cargo =>
    if weight_capacity - current_weight ≤ 0 then (pod, [])
    else
      match pod.stations.lookup station_id with
      | none =>
        let pending := (pod.available_requests.filter
            (fun r => r.origin = station_id ∧ r.rtype = "cargo")).map
          (fun r => CargoReqView.mk r.request_id r.destination r.weight)
        if pending.isEmpty then (pod, [])
        else
          let res := cargoLoadLoop pod.pod_id weight_capacity current_weight pending none 0
          if res.1.isEmpty then
            ({ pod with status := .idle }, [.podStatusUpdate, .podStatusUpdate])
          else
            ({ pod with
                payload := .cargo weight_capacity (current_weight + res.2.2.2) (cargo ++ res.1)
                status := .en_route },
              .podStatusUpdate :: res.2.1)
      | some stn =>
        let pending := (get_pending_cargo stn.cargo_queue).map
          (fun c => CargoReqView.mk c.request_id c.destination c.weight)
        if pending.isEmpty then (pod, [])
        else
          let res := cargoLoadLoop pod.pod_id weight_capacity current_weight pending
            (some stn.cargo_queue) 0
          let stn' := { stn with cargo_queue := res.2.2.1.getD stn.cargo_queue }
          let pod := { pod with stations := updateStationMap pod.stations station_id stn' }
          if res.1.isEmpty then
            ({ pod with status := .idle }, [.podStatusUpdate, .podStatusUpdate])
          else
            ({ pod with
                payload := .cargo weight_capacity (current_weight + res.2.2.2) (cargo ++ res.1)
                status := .en_route },
              .podStatusUpdate :: res.2.1)

/-- `CargoPod._execute_cargo_delivery` (`pod.py` lines 997–1032). -/
def execute_cargo_delivery (pod : PodState) (station_id : String) :
    PodState × List PodEvent :=
  match pod.payload with
  | .passenger _ _ => (pod, [])
  | .cargo weight_capacity current_weight cargo =>
    let delivered := cargo.filter (fun c => c.destination = station_id)
    if delivered.isEmpty then (pod, [])
    else
      ({ pod with
          payload := .cargo weight_capacity
            (current_weight - (delivered.map (fun c => c.weight)).sum)
            (cargo.filter (fun c => c.destination ≠ station_id))
          status := .en_route },
        .podStatusUpdate :: delivered.map (fun c => .cargoDelivered c.request_id))

/-- `_handle_station_arrival`, dispatched on the pod type
(`PassengerPod` lines 704–711, `CargoPod` lines 904–912).  Both set the
status to `IDLE` first; the passenger variant publishes a `PodArrival`
event, the cargo variant snaps the location descriptor to the station
keeping the current coordinate. -/
def handle_station_arrival (pod : PodState) (station_id : String) :
    PodState × List PodEvent :=
  match pod.payload with
  | .passenger _ _ =>
    let pod := { pod with status := .idle }
    let r1 := execute_passenger_pickup pod station_id
    let r2 := execute_passenger_delivery r1.1 station_id
    (r2.1, .podArrival :: (r1.2 ++ r2.2))
  | .cargo _ _ _ =>
    let ld : LocationDescriptor :=
      { location_type := .station, node_id := station_id,
        coordinate := pod.location_descriptor.coordinate }
    let pod := { pod with status := PodStatus.idle, location_descriptor := ld }
    let r1 := execute_cargo_pickup pod station_id
    let r2 := execute_cargo_delivery r1.1 station_id
    (r2.1, r1.2 ++ r2.2)

/-- `Pod._advance_segment` (`pod.py` lines 504–513): pop the next queued
segment, or mark the route finished; `segment_progress` is reset only when
a next segment exists, exactly as in the source. -/
def advance_segment (pod : PodState) : PodState :=
  match pod.route_queue with
  | seg :: rest =>
    { pod with current_segment := some seg, route_queue := rest, segment_progress := 0 }
  | [] => { pod with current_segment := none }

/-- `Pod._update_location_descriptor` (`pod.py` lines 515–529): a no-op
without a current segment, else the interpolated on-edge descriptor. -/
def update_location_descriptor (pod : PodState) : PodState :=
  match pod.current_segment with
  | none => pod
  | some seg =>
    { pod with location_descriptor :=
      { location_type := .edge, edge_id := seg.segment_id
        coordinate := seg.get_point_at_distance pod.segment_progress
        distance_on_edge := pod.segment_progress } }

/-- `Pod._handle_route_completion` (`pod.py` lines 531–560): snap to the
final station's coordinates, run station arrival there, go `IDLE`, clear
the route, and publish one position update and one status update. -/
def handle_route_completion (pod : PodState) : PodState × List PodEvent :=
  let r :=
    match pod.current_route with
    | some route =>
      if route.stations.isEmpty then (pod, ([] : List PodEvent))
      else
        let final_station := route.stations.getLastD ""
        let pos := (pod.network_positions.lookup final_station).getD ⟨0, 0⟩
        let pod := { pod with location_descriptor :=
          { location_type := .station, node_id := final_station, coordinate := pos } }
        handle_station_arrival pod final_station
    | none => (pod, [])
  ({ r.1 with status := .idle, current_route := none, segment_progress := 0 },
    r.2 ++ [.podPositionUpdate, .podStatusUpdate])

/-- The `while dist_to_travel > 0` integrator loop of `Pod.update`
(`pod.py` lines 463–494).  The returned flag records the source's early
`return True` paths (route completion, or stopping for loading/unloading).
`fuel` is an upper bound on the loop iterations: every overflow iteration
consumes one segment, so `Pod.update` passes one more than the number of
segments and the `fuel = 0` case is unreachable (proved below). -/
def movementLoop : ℕ → ℚ → PodState → PodState × List PodEvent × Bool
  | 0, _, pod => (pod, [], false)
  | fuel + 1, dist, pod =>
    if dist ≤ 0 then (pod, [], false)
    else
      match pod.current_segment with
      | none =>
        let r := handle_route_completion pod
        (r.1, r.2, true)
      | some seg =>
        let remaining := seg.length - pod.segment_progress
        if dist ≥ remaining then
          let arrived := seg.end_node
          let p1 := advance_segment pod
          match p1.current_segment with
          | none =>
            let r2 := handle_station_arrival p1 arrived
            if r2.1.status = .loading ∨ r2.1.status = .unloading then
              (r2.1, r2.2, true)
            else
              let r3 := movementLoop fuel (dist - remaining) r2.1
              (r3.1, r2.2 ++ r3.2.1, r3.2.2)
          | some _ => movementLoop fuel (dist - remaining) p1
        else
          ({ pod with segment_progress := pod.segment_progress + dist }, [], false)

/-- `Pod.update(dt)` (`pod.py` lines 448–502): guard on status/segment,
distance capped at 100 per tick, the integrator loop, then — unless an
early-return path fired — the location refresh and the single position
update publish. -/
def Pod.update (pod : PodState) (dt : ℚ) : PodState × List PodEvent × Bool :=
  if pod.status ≠ PodStatus.en_route ∨ pod.current_segment = none then (pod, [], false)
  else
    let dist := min (pod.speed * dt) 100
    let r := movementLoop (pod.route_queue.length + 2) dist pod
    if r.2.2 then r
    else
      let p := update_location_descriptor r.1
      (p, r.2.1 ++ [.podPositionUpdate], false)

/-- Repeated physics ticks: fold `Pod.update` over a list of time steps,
keeping only the state (used for the tick-size-independence claim). -/
def Pod.updateRuns (pod : PodState) (dts : List ℚ) : PodState :=
  dts.foldl (fun p d => (Pod.update p d).1) pod

/-- A sequence of station visits through `_handle_station_arrival`
(the entry point of every pickup/delivery), keeping only the state. -/
def applyArrivals (pod : PodState) (sids : List String) : PodState :=
  sids.foldl (fun p sid => (handle_station_arrival p sid).1) pod

/-- The spec's capacity invariant, per pod type: onboard passenger count
bounded by seat capacity; onboard weight bounded by weight capacity. -/
def capacityInvariant (pod : PodState) : Prop :=
  match pod.payload with
  | .passenger capacity passengers => passengers.length ≤ capacity
  | .cargo weight_capacity current_weight _ => current_weight ≤ weight_capacity

/-- Physical well-formedness of a cargo manifest: every onboard item has
nonnegative weight (every item the loading loop accepts has positive
weight; needed so delivery cannot raise `current_weight`). -/
def manifestWeightsNonneg (pod : PodState) : Prop :=
  match pod.payload with
  | .passenger _ _ => True
  | .cargo _ _ cargo => ∀ c ∈ cargo, 0 ≤ c.weight

/-- Whether a pod carries the passenger payload variant. -/
def isPassengerPod (pod : PodState) : Prop :=
  match pod.payload with
  | .passenger _ _ => True
  | .cargo _ _ _ => False

/-- An empty manifest (no onboard passengers / cargo), the state of a pod
in the bare movement-conservation scenario. -/
def manifestEmptyP : PodPayload → Prop
  | .passenger _ passengers => passengers = []
  | .cargo _ _ cargo => cargo = []

/-- `manifestEmptyP` lifted to a pod. -/
def manifestEmpty (pod : PodState) : Prop :=
  manifestEmptyP pod.payload

/-! ## Derived predicates and run folds used by the claims -/

/-- A routing strategy outcome that moves the provider on to the next
router: a raised (and logged) exception, or a falsy (`None`) result. -/
def failsOrEmpty (o : RouterOutcome) : Prop :=
  o = .success none ∨ ∃ e, o = .failure e

/-- Run a sequence of claim calls `(entry_id, pod_id)` against a queue,
returning the results in order and the final queue (generic over the
passenger/cargo entry shape, like `claimEntry`). -/
def runClaims {α : Type} (key : α → String) (getC : α → Option String)
    (setC : α → String → α) :
    List α → List (String × String) → List Bool × List α
  | q, [] => ([], q)
  | q, (eid, pid) :: rest =>
    let r := claimEntry key getC setC eid pid q
    let rec' := runClaims key getC setC r.2 rest
    (r.1 :: rec'.1, rec'.2)

/-- How many of the calls for `eid` returned `true`. -/
def countTrueFor (calls : List (String × String)) (results : List Bool)
    (eid : String) : ℕ :=
  ((calls.zip results).filter (fun p => p.1.1 = eid ∧ p.2)).length

/-- The first queue entry matching `eid` (how the claim walk locates it). -/
def firstMatch {α : Type} (key : α → String) (eid : String) (q : List α) : Option α :=
  q.find? (fun a => key a = eid)

/-- `runClaims` instantiated at the passenger queue shape: a sequence of
`claim_passenger(id, pod_id)` calls. -/
def run_claim_passenger (q : List PassengerEntry) (calls : List (String × String)) :
    List Bool × List PassengerEntry :=
  runClaims PassengerEntry.passenger_id PassengerEntry.claimed_by
    (fun e p => { e with claimed_by := some p }) q calls

/-- `runClaims` instantiated at the cargo queue shape: a sequence of
`claim_cargo(id, pod_id)` calls. -/
def run_claim_cargo (q : List CargoEntry) (calls : List (String × String)) :
    List Bool × List CargoEntry :=
  runClaims CargoEntry.request_id CargoEntry.claimed_by
    (fun e p => { e with claimed_by := some p }) q calls

/-- The state of a pod part-way through a hydrated two-edge route
(`e1` then `e2`), having consumed total distance `c` from the start:
still on `e1` at progress `c`, or past the intermediate node on `e2`.
`c = 0` is exactly the freshly hydrated pod (`_hydrate_route` primes the
first segment at progress `0`). -/
def twoEdgeState (pid : String) (ld : LocationDescriptor) (e1 e2 : EdgeSegment)
    (S : ℚ) (rt : Option Route) (net : List (String × Coordinate))
    (pl : PodPayload) (c : ℚ) : PodState :=
  if c < e1.length then
    { pod_id := pid, status := .en_route, location_descriptor := ld
      route_queue := [e2], current_segment := some e1, segment_progress := c
      speed := S, current_route := rt, available_requests := [], stations := []
      network_positions := net, payload := pl }
  else
    { pod_id := pid, status := .en_route, location_descriptor := ld
      route_queue := [], current_segment := some e2
      segment_progress := c - e1.length
      speed := S, current_route := rt, available_requests := [], stations := []
      network_positions := net, payload := pl }

/-- The station operations that mutate a queue and end in a congestion
recomputation (everything but the bare capacity-field update). -/
def isQueueMutation : StationOp → Prop
  | .capacityUpdate _ _ => False
  | _ => True

/-! ## Concrete fixtures for counterexamples and witnesses -/

/-- Edge `s1→s2`, 10 units long (the repository's own
`test_pod_movement.py` network). -/
def edgeA : EdgeSegment := ⟨"s1->s2", "s1", "s2", ⟨0, 0⟩, ⟨10, 0⟩, 10⟩

/-- Edge `s2→s3`, 10 units long. -/
def edgeB : EdgeSegment := ⟨"s2->s3", "s2", "s3", ⟨10, 0⟩, ⟨20, 0⟩, 10⟩

/-- A freshly hydrated passenger pod on `[edgeA, edgeB]` at speed 20 with
no station references, no seeded requests, and an empty manifest. -/
def podC2 : PodState :=
  { pod_id := "pod_test", status := .en_route
    location_descriptor := { location_type := .station, node_id := "station_001" }
    route_queue := [edgeB], current_segment := some edgeA, segment_progress := 0
    speed := 20, current_route := none, available_requests := [], stations := []
    network_positions := [], payload := .passenger 4 [] }

/-- A passenger pod at a station it holds no reference for, with five
matching seeded requests — the legacy pickup fallback input. -/
def podC5 : PodState :=
  { pod_id := "pod_x", status := .idle
    location_descriptor := { location_type := .station, node_id := "s1" }
    route_queue := [], current_segment := none, segment_progress := 0
    speed := 20, current_route := none
    available_requests :=
      [{ origin := "s1", rtype := "passenger", passenger_id := "p0", destination := "s2" },
       { origin := "s1", rtype := "passenger", passenger_id := "p1", destination := "s2" },
       { origin := "s1", rtype := "passenger", passenger_id := "p2", destination := "s2" },
       { origin := "s1", rtype := "passenger", passenger_id := "p3", destination := "s2" },
       { origin := "s1", rtype := "passenger", passenger_id := "p4", destination := "s2" }]
    stations := [], network_positions := [], payload := .passenger 4 [] }

/-- A passenger pod docked at a station it does hold a reference for,
whose queue offers more unclaimed passengers than the pod has seats. -/
def podC5w : PodState :=
  { pod_id := "pod_w", status := .idle
    location_descriptor := { location_type := .station, node_id := "s1" }
    route_queue := [], current_segment := none, segment_progress := 0
    speed := 20, current_route := none, available_requests := []
    stations := [("s1",
      { station_id := "s1"
        passenger_queue :=
          [{ passenger_id := "q0", destination := "s2" },
           { passenger_id := "q1", destination := "s2" },
           { passenger_id := "q2", destination := "s2" },
           { passenger_id := "q3", destination := "s2" },
           { passenger_id := "q4", destination := "s2" },
           { passenger_id := "q5", destination := "s2" }] })]
    network_positions := [], payload := .passenger 4 [] }

/-- A router that always raises a connection error. -/
def failingRouter : Router := fun _ => .failure .connectionError

/-- The route the healthy witness router returns. -/
def routeC3 : Route := { route_id := "offline_1", stations := ["s1", "s2"] }

/-- A router that returns `routeC3`. -/
def okRouter : Router := fun _ => .success (some routeC3)

/-- A minimal decision context for routing witnesses. -/
def ctxC3 : DecisionContext :=
  { pod_id := "pod_001", current_location := "s1", capacity_available := 4
    weight_available := 0 }

/-- A fallback strategy fixture: the concrete `RouteData` the offline
strategy's empty-requests branch yields for `ctxC3`. -/
def fallbackC9 : DecisionContext → RouteData := offline_empty_branch

/-- An AI provider fixture that is available and always succeeds. -/
def providerC9 : AIProviderContract :=
  { is_available := true
    make_decision := fun ctx => .ok { route := [ctx.current_location], estimated_duration := 0, confidence := 9/10 } }

/-- An engine state that recorded a failure at minute 100. -/
def engineC9 : AIEngineState := { failure_count := 1, last_failure := some 100 }

/-- The default-configured station used by the congestion fixtures. -/
def stC4 : StationState := { station_id := "station_001" }

/-- A single-edge network for the spawn fixture. -/
def netC8 : NetworkCtx :=
  { station_positions := [("station_001", ⟨0, 0⟩), ("station_002", ⟨10, 0⟩)]
    edges := [("station_001->station_002", edgeA)] }

/-! # Theorems -/

/-! ## C10 — `get_point_at_distance` is total and clamped -/

/-- C10: `EdgeSegment.get_point_at_distance` is total and clamped — a
zero-length segment returns `start_coord` without dividing, and for every
segment and every distance (negative or beyond the length) the result lies
on the straight line between `start_coord` and `end_coord`, with the
interpolation parameter clamped to `[0,1]`. -/
theorem C10_point_at_distance_total_clamped :
    (∀ (sid sn en : String) (a b : Coordinate) (d : ℚ),
      EdgeSegment.get_point_at_distance ⟨sid, sn, en, a, b, 0⟩ d = a) ∧
    (∀ (seg : EdgeSegment) (d : ℚ), ∃ t : ℚ, 0 ≤ t ∧ t ≤ 1 ∧
      seg.get_point_at_distance d =
        ⟨seg.start_coord.x + (seg.end_coord.x - seg.start_coord.x) * t,
          seg.start_coord.y + (seg.end_coord.y - seg.start_coord.y) * t⟩) := by
  constructor
  · intro sid sn en a b d
    simp [EdgeSegment.get_point_at_distance]
  · intro seg d
    by_cases h : seg.length = 0
    · refine ⟨0, le_refl 0, by norm_num, ?_⟩
      simp [EdgeSegment.get_point_at_distance, h]
    · refine ⟨max 0 (min 1 (min 1 (max 0 (d / seg.length)))), le_max_left 0 _,
        max_le (by norm_num) (min_le_left 1 _), ?_⟩
      simp [EdgeSegment.get_point_at_distance, h, Coordinate.interpolate]

/-! ## C8 — `spawn_pod_at_random_edge` result shape (code bug) -/

/-- C8 (code bug): `spawn_pod_at_random_edge` always returns a 2-tuple
`(edge_id, coordinate)`, so the three-name destructuring its caller
`AexisSystem._create_pods` performs (`system.py` line 663, documented there
as `(edge_id, coordinate, distance)`) raises `ValueError` on every input —
the progress value the claim (and the caller) expect is missing. -/
theorem C8_spawn_unpack_always_fails (net : NetworkCtx) (choice : ℕ) (u : ℚ) :
    unpackThree (spawn_pod_at_random_edge net choice u) =
      .error "ValueError: not enough values to unpack" := by
  unfold spawn_pod_at_random_edge
  split <;> rfl

/-! ## C3 — routing fallback chain -/

/-- Characterization of the provider scan succeeding with a route. -/
theorem providerScan_ok_iff (ctx : DecisionContext) (routers : List Router)
    (r : Route) :
    providerScan ctx routers = .ok r ↔
      ∃ pre router post, routers = pre ++ router :: post ∧
        router ctx = .success (some r) ∧ ∀ p ∈ pre, failsOrEmpty (p ctx) := by
  induction routers with
  | nil =>
    simp only [providerScan]
    constructor
    · intro h; cases h
    · rintro ⟨pre, router, post, habs, -, -⟩
      exact absurd habs (by simp)
  | cons head tail ih =>
    constructor
    · intro h
      simp only [providerScan] at h
      match hh : head ctx with
      | .success (some r') =>
        rw [hh] at h
        cases h
        exact ⟨[], head, tail, rfl, hh, by simp⟩
      | .success none =>
        rw [hh] at h
        obtain ⟨pre, router, post, he, hr, hpre⟩ := ih.1 h
        refine ⟨head :: pre, router, post, by simp [he], hr, ?_⟩
        intro p hp
        rcases List.mem_cons.1 hp with hEq | hMem
        · subst hEq; exact Or.inl hh
        · exact hpre p hMem
      | .failure e =>
        rw [hh] at h
        obtain ⟨pre, router, post, he, hr, hpre⟩ := ih.1 h
        refine ⟨head :: pre, router, post, by simp [he], hr, ?_⟩
        intro p hp
        rcases List.mem_cons.1 hp with hEq | hMem
        · subst hEq; exact Or.inr ⟨e, hh⟩
        · exact hpre p hMem
    · rintro ⟨pre, router, post, he, hr, hpre⟩
      match pre with
      | [] =>
        simp only [List.nil_append] at he
        cases he
        simp only [providerScan, hr]
      | p0 :: pre' =>
        simp only [List.cons_append, List.cons.injEq] at he
        obtain ⟨he0, he1⟩ := he
        subst he0
        have h0 : failsOrEmpty (head ctx) := hpre head (by simp)
        have htail : providerScan ctx tail = .ok r :=
          ih.2 ⟨pre', router, post, he1, hr, fun p hp => hpre p (by simp [hp])⟩
        rcases h0 with hnone | ⟨e, hfail⟩
        · simp only [providerScan, hnone]; exact htail
        · simp only [providerScan, hfail]; exact htail

/-- Characterization of the provider scan exhausting every router. -/
theorem providerScan_error_iff (ctx : DecisionContext) (routers : List Router) :
    providerScan ctx routers = .error .allStrategiesFailed ↔
      ∀ p ∈ routers, failsOrEmpty (p ctx) := by
  induction routers with
  | nil => simp [providerScan]
  | cons head tail ih =>
    constructor
    · intro h
      simp only [providerScan] at h
      match hh : head ctx with
      | .success (some r') => rw [hh] at h; cases h
      | .success none =>
        rw [hh] at h
        intro p hp
        rcases List.mem_cons.1 hp with hEq | hMem
        · subst hEq; exact Or.inl hh
        · exact ih.1 h p hMem
      | .failure e =>
        rw [hh] at h
        intro p hp
        rcases List.mem_cons.1 hp with hEq | hMem
        · subst hEq; exact Or.inr ⟨e, hh⟩
        · exact ih.1 h p hMem
    · intro hall
      have h0 : failsOrEmpty (head ctx) := hall head (by simp)
      have htail : providerScan ctx tail = .error .allStrategiesFailed :=
        ih.2 (fun p hp => hall p (by simp [hp]))
      rcases h0 with hnone | ⟨e, hfail⟩
      · simp only [providerScan, hnone]; exact htail
      · simp only [providerScan, hfail]; exact htail

/-- C3: `RoutingProvider.route` tries the configured routers in
registration order; a raised connectivity/timeout/generic exception (and a
falsy result) moves on to the next router; the first router that returns a
route wins; and the `All routing strategies failed` error escalates exactly
when every configured router fails. -/
theorem C3_routing_fallback_chain (routers : List Router) (ctx : DecisionContext)
    (hne : routers ≠ []) :
    (∀ r : Route, RoutingProvider.route routers ctx = .ok r ↔
      ∃ pre router post, routers = pre ++ router :: post ∧
        router ctx = .success (some r) ∧ ∀ p ∈ pre, failsOrEmpty (p ctx)) ∧
    (RoutingProvider.route routers ctx = .error .allStrategiesFailed ↔
      ∀ p ∈ routers, failsOrEmpty (p ctx)) := by
  have hempty : routers.isEmpty = false := by
    cases routers with
    | nil => exact absurd rfl hne
    | cons a l => rfl
  constructor
  · intro r
    rw [RoutingProvider.route, hempty]
    simpa using providerScan_ok_iff ctx routers r
  · rw [RoutingProvider.route, hempty]
    simpa using providerScan_error_iff ctx routers

/-- Witness for C3: with a chain whose first router always raises a
connection error and whose second returns a route, the provider returns
that route. -/
theorem C3_routing_fallback_chain_witness :
    RoutingProvider.route [failingRouter, okRouter] ctxC3 = .ok routeC3 := by
  have h := C3_routing_fallback_chain [failingRouter, okRouter] ctxC3 (by simp)
  exact (h.1 routeC3).2
    ⟨[failingRouter], okRouter, [], rfl, rfl,
      by intro p hp; simp only [List.mem_singleton] at hp; subst hp
         exact Or.inr ⟨.connectionError, rfl⟩⟩

/-! ## C9 — AI cool-down with internal fallback -/

/-- C9: after an AI failure at minute `t`, every route request inside the
30-minute backoff window leaves the external provider uninvoked and is
served by the injected offline fallback strategy; the engine state is left
untouched, so this holds across the whole window. -/
theorem C9_ai_cooldown_internal_fallback (p : AIProviderContract)
    (fallback : DecisionContext → RouteData) (e : AIEngineState) (t : ℚ)
    (reqs : List (DecisionContext × ℚ))
    (hfail : e.last_failure = some t)
    (hwin : ∀ r ∈ reqs, r.2 - t < 30) :
    AIRouter.runRequests p fallback e reqs =
      (reqs.map (fun r =>
        ({ route_id := "ai", stations := (fallback r.1).route,
           estimated_duration := (fallback r.1).duration,
           distance := (fallback r.1).distance }, false)), e) := by
  induction reqs with
  | nil => rfl
  | cons head rest ih =>
    obtain ⟨ctx, now⟩ := head
    have hw : now - t < 30 := hwin (ctx, now) (by simp)
    have hshould : should_use_ai p e now = false := by
      unfold should_use_ai
      rw [hfail]
      split
      · rfl
      · simp [hw]
    have hstep : AIRouter.route p fallback e ctx now =
        ({ route_id := "ai", stations := (fallback ctx).route,
           estimated_duration := (fallback ctx).duration,
           distance := (fallback ctx).distance }, e, false) := by
      unfold AIRouter.route engine_make_decision
      rw [hshould]
      rfl
    simp only [AIRouter.runRequests, hstep]
    rw [ih (fun r hr => hwin r (by simp [hr]))]
    simp

/-- Witness for C9: with the failure recorded at minute 100, a request at
minute 110 is answered by the offline fallback without touching the
provider. -/
theorem C9_ai_cooldown_witness :
    AIRouter.runRequests providerC9 fallbackC9 engineC9 [(ctxC3, 110)] =
      ([({ route_id := "ai", stations := ["s1"], estimated_duration := 0,
           distance := 0 }, false)], engineC9) := by
  have h := C9_ai_cooldown_internal_fallback providerC9 fallbackC9 engineC9 100
    [(ctxC3, 110)] rfl (by
      intro r hr
      simp only [List.mem_singleton] at hr
      subst hr
      norm_num)
  rw [h]
  rfl

/-! ## C4 — congestion boundary -/

/-- The recomputation keeps the level inside `[0,1]` as long as the bay
counters are consistent (`0 ≤ available_bays ≤ loading_bays`, positive). -/
theorem update_congestion_level_bounds (st : StationState)
    (h0 : 0 ≤ st.available_bays) (hle : st.available_bays ≤ st.loading_bays)
    (hpos : 0 < st.loading_bays) :
    0 ≤ (update_congestion_level st).congestion_level ∧
      (update_congestion_level st).congestion_level ≤ 1 := by
  have hp0 : (0 : ℚ) ≤ min 1 ((st.passenger_queue.length : ℚ) / 20) :=
    le_min (by norm_num) (by positivity)
  have hp1 : min 1 ((st.passenger_queue.length : ℚ) / 20) ≤ 1 := min_le_left 1 _
  have hc0 : (0 : ℚ) ≤ min 1 ((st.cargo_queue.length : ℚ) / 10) :=
    le_min (by norm_num) (by positivity)
  have hc1 : min 1 ((st.cargo_queue.length : ℚ) / 10) ≤ 1 := min_le_left 1 _
  have hb0 : (0 : ℚ) ≤ st.available_bays / st.loading_bays :=
    div_nonneg h0 (le_of_lt hpos)
  have hb1 : st.available_bays / st.loading_bays ≤ 1 := (div_le_one hpos).2 hle
  have key : (update_congestion_level st).congestion_level =
      min 1 ((st.passenger_queue.length : ℚ) / 20) * (4/10)
        + min 1 ((st.cargo_queue.length : ℚ) / 10) * (3/10)
        + (1 - st.available_bays / st.loading_bays) * (3/10) := rfl
  constructor
  · rw [key]; linarith
  · rw [key]; linarith

/-- C4 (counterexample): after an `UpdateCapacity` command lowers
`loading_bays` to 2 (with `available_bays` fixed at 4) the recomputation
triggered by the next passenger arrival drives `congestion_level` below 0,
so the level does not always lie in `[0,1]`. -/
theorem C4_counterexample :
    ((applyStationOp (applyStationOp stC4 (.capacityUpdate (some 2) none)).1
        (.passengerArrival { passenger_id := "p", destination := "d" })).1).congestion_level
      < 0 := by
  norm_num [applyStationOp, handle_capacity_update, handle_passenger_arrival,
    update_congestion_level, stC4, min_def]

/-- C4 (amended): after every queue mutation the congestion level lies in
`[0,1]` provided the bay counters are consistent at recomputation time
(`0 ≤ available_bays ≤ loading_bays`, `loading_bays > 0` — which a
capacity update setting `max_pods` below the fixed `available_bays = 4`
violates); and a `CongestionAlert` is only ever published with
`congestion_level ≥ 0.7` at publication time. -/
theorem C4_congestion_boundary_amended :
    (∀ (st : StationState) (op : StationOp), isQueueMutation op →
      0 ≤ st.available_bays → st.available_bays ≤ st.loading_bays →
      0 < st.loading_bays →
      0 ≤ (applyStationOp st op).1.congestion_level ∧
        (applyStationOp st op).1.congestion_level ≤ 1) ∧
    (∀ (st : StationState) (op : StationOp) (a : CongestionAlertData),
      (applyStationOp st op).2 = some a → 7/10 ≤ a.congestion_level) := by
  constructor
  · intro st op hq h0 hle hpos
    cases op with
    | capacityUpdate mp pr => exact absurd hq (by simp [isQueueMutation])
    | passengerArrival e =>
      exact update_congestion_level_bounds
        { st with passenger_queue := st.passenger_queue ++ [e] } h0 hle hpos
    | cargoRequest e =>
      exact update_congestion_level_bounds
        { st with cargo_queue := st.cargo_queue ++ [e] } h0 hle hpos
    | passengerPickup pid =>
      exact update_congestion_level_bounds _ h0 hle hpos
    | cargoLoading rid =>
      exact update_congestion_level_bounds _ h0 hle hpos
  · intro st op a ha
    cases op with
    | capacityUpdate mp pr => cases ha
    | passengerPickup pid => cases ha
    | cargoLoading rid => cases ha
    | passengerArrival e =>
      simp only [applyStationOp, handle_passenger_arrival] at ha
      split at ha
      · unfold publish_congestion_alert at ha
        split at ha
        · cases ha
        · rename_i hge
          cases ha
          simpa using le_of_not_lt hge
      · cases ha
    | cargoRequest e =>
      simp only [applyStationOp, handle_cargo_request] at ha
      split at ha
      · unfold publish_congestion_alert at ha
        split at ha
        · cases ha
        · rename_i hge
          cases ha
          simpa using le_of_not_lt hge
      · cases ha

/-- Witness for C4 (amended): a passenger arrival at the
default-configured station keeps the level inside `[0,1]`. -/
theorem C4_congestion_boundary_witness :
    0 ≤ (applyStationOp stC4
        (.passengerArrival { passenger_id := "p", destination := "d" })).1.congestion_level ∧
      (applyStationOp stC4
        (.passengerArrival { passenger_id := "p", destination := "d" })).1.congestion_level ≤ 1 :=
  C4_congestion_boundary_amended.1 stC4 _ trivial (by norm_num [stC4])
    (by norm_num [stC4]) (by norm_num [stC4])

/-! ## Claim-system lemmas (shared by C1 and C7) -/

section ClaimSystem

variable {α : Type} (key : α → String) (getC : α → Option String) (setC : α → String → α)

/-- A claim for an id with no matching entry returns `false` and leaves the
queue untouched. -/
theorem claimEntry_not_found (eid pid : String) (q : List α)
    (h : firstMatch key eid q = none) :
    claimEntry key getC setC eid pid q = (false, q) := by
  induction q with
  | nil => rfl
  | cons a rest ih =>
    by_cases hk : key a = eid
    · rw [firstMatch, List.find?_cons_of_pos _ (by simp [hk])] at h
      cases h
    · rw [firstMatch, List.find?_cons_of_neg _ (by simp [hk])] at h
      have hr := ih h
      simp [claimEntry, hk, hr]

/-- A claim whose first matching entry is already (truthily) claimed
returns `false` and leaves the queue untouched. -/
theorem claimEntry_found_claimed (eid pid : String) (q : List α) (e : α)
    (hf : firstMatch key eid q = some e) (hc : claimedTruthy (getC e) = true) :
    claimEntry key getC setC eid pid q = (false, q) := by
  induction q with
  | nil => cases hf
  | cons a rest ih =>
    by_cases hk : key a = eid
    · rw [firstMatch, List.find?_cons_of_pos _ (by simp [hk])] at hf
      cases hf
      simp [claimEntry, hk, hc]
    · rw [firstMatch, List.find?_cons_of_neg _ (by simp [hk])] at hf
      have hr := ih hf
      simp [claimEntry, hk, hr]

/-- A claim whose first matching entry is unclaimed returns `true`. -/
theorem claimEntry_found_unclaimed_true (eid pid : String) (q : List α) (e : α)
    (hf : firstMatch key eid q = some e) (hc : claimedTruthy (getC e) = false) :
    (claimEntry key getC setC eid pid q).1 = true := by
  induction q with
  | nil => cases hf
  | cons a rest ih =>
    by_cases hk : key a = eid
    · rw [firstMatch, List.find?_cons_of_pos _ (by simp [hk])] at hf
      cases hf
      simp [claimEntry, hk, hc]
    · rw [firstMatch, List.find?_cons_of_neg _ (by simp [hk])] at hf
      have h1 := ih hf
      simp [claimEntry, hk, h1]

/-- A claim whose first matching entry is unclaimed returns `true` and sets
that entry's `claimed_by` to the caller's pod id. -/
theorem claimEntry_found_unclaimed
    (hKey : ∀ a s, key (setC a s) = key a)
    (eid pid : String) (q : List α) (e : α)
    (hf : firstMatch key eid q = some e) (hc : claimedTruthy (getC e) = false) :
    (claimEntry key getC setC eid pid q).1 = true ∧
      firstMatch key eid (claimEntry key getC setC eid pid q).2 =
        some (setC e pid) := by
  induction q with
  | nil => cases hf
  | cons a rest ih =>
    by_cases hk : key a = eid
    · rw [firstMatch, List.find?_cons_of_pos _ (by simp [hk])] at hf
      cases hf
      refine ⟨by simp [claimEntry, hk, hc], ?_⟩
      simp only [claimEntry, hk, if_pos, hc, Bool.false_eq_true, if_false]
      rw [firstMatch, List.find?_cons_of_pos _ (by simp [hKey, hk])]
    · rw [firstMatch, List.find?_cons_of_neg _ (by simp [hk])] at hf
      obtain ⟨h1, h2⟩ := ih hf
      refine ⟨by simp [claimEntry, hk, h1], ?_⟩
      simp only [claimEntry, hk, if_false]
      rw [firstMatch, List.find?_cons_of_neg _ (by simp [hk])]
      exact h2

/-- A claim for a different id never changes which entry a given id
resolves to. -/
theorem claimEntry_other_key
    (hKey : ∀ a s, key (setC a s) = key a)
    (eid eid' pid : String) (hne : eid' ≠ eid) (q : List α) :
    firstMatch key eid (claimEntry key getC setC eid' pid q).2 =
      firstMatch key eid q := by
  induction q with
  | nil => rfl
  | cons a rest ih =>
    by_cases hk : key a = eid'
    · have hka : ¬ key a = eid := fun h => hne (hk ▸ h)
      by_cases hc : claimedTruthy (getC a) = true
      · simp [claimEntry, hk, hc]
      · have hcf : claimedTruthy (getC a) = false := by simpa using hc
        have hres : (claimEntry key getC setC eid' pid (a :: rest)).2 =
            setC a pid :: rest := by
          simp [claimEntry, hk, hcf]
        rw [hres, firstMatch, List.find?_cons_of_neg _ (by simp [hKey, hk, hne]),
          firstMatch, List.find?_cons_of_neg _ (by simp [hka])]
    · simp only [claimEntry, hk, if_false]
      by_cases hke : key a = eid
      · rw [firstMatch, List.find?_cons_of_pos _ (by simp [hke]),
          firstMatch, List.find?_cons_of_pos _ (by simp [hke])]
      · rw [firstMatch, List.find?_cons_of_neg _ (by simp [hke]),
          firstMatch, List.find?_cons_of_neg _ (by simp [hke])]
        exact ih

/-- A `true` result can only come from an unclaimed first matching entry. -/
theorem claimEntry_true_cases (eid pid : String) (q : List α)
    (h : (claimEntry key getC setC eid pid q).1 = true) :
    ∃ e, firstMatch key eid q = some e ∧ claimedTruthy (getC e) = false := by
  rcases hf : firstMatch key eid q with _ | e
  · rw [claimEntry_not_found key getC setC eid pid q hf] at h
    cases h
  · by_cases hc : claimedTruthy (getC e) = true
    · rw [claimEntry_found_claimed key getC setC eid pid q e hf hc] at h
      cases h
    · exact ⟨e, rfl, by simpa using hc⟩

/-- A `false` result leaves the queue untouched. -/
theorem claimEntry_false_unchanged (eid pid : String) (q : List α)
    (h : (claimEntry key getC setC eid pid q).1 = false) :
    (claimEntry key getC setC eid pid q).2 = q := by
  cases hf : firstMatch key eid q with
  | none => rw [claimEntry_not_found key getC setC eid pid q hf]
  | some e =>
    by_cases hc : claimedTruthy (getC e) = true
    · rw [claimEntry_found_claimed key getC setC eid pid q e hf hc]
    · have htrue := claimEntry_found_unclaimed_true key getC setC eid pid q e hf
        (by simpa using hc)
      rw [htrue] at h
      cases h

/-- Unfolding of `countTrueFor` over one `(call, result)` pair. -/
theorem countTrueFor_cons (c : String × String) (calls : List (String × String))
    (b : Bool) (results : List Bool) (eid : String) :
    countTrueFor (c :: calls) (b :: results) eid =
      (if c.1 = eid ∧ b then 1 else 0) + countTrueFor calls results eid := by
  by_cases h : c.1 = eid ∧ b
  · simp [countTrueFor, List.filter_cons, h, Nat.add_comm]
  · simp [countTrueFor, List.filter_cons, h]

/-- Once the entry an id resolves to is truthily claimed by `w`, every later
claim call keeps it claimed by `w` and every later call for that id returns
`false`. -/
theorem runClaims_claimed_stays
    (hKey : ∀ a s, key (setC a s) = key a)
    (eid w : String) (hwne : w ≠ "") :
    ∀ (calls : List (String × String)) (q : List α) (e : α),
    firstMatch key eid q = some e → getC e = some w →
    (∃ e', firstMatch key eid (runClaims key getC setC q calls).2 = some e' ∧
      getC e' = some w) ∧
    countTrueFor calls (runClaims key getC setC q calls).1 eid = 0 := by
  intro calls
  induction calls with
  | nil =>
    intro q e hf hg
    exact ⟨⟨e, hf, hg⟩, rfl⟩
  | cons c rest ih =>
    intro q e hf hg
    obtain ⟨id', pid'⟩ := c
    have hct : claimedTruthy (getC e) = true := by
      rw [hg]; simpa [claimedTruthy] using hwne
    by_cases hid : id' = eid
    · subst hid
      have hcl := claimEntry_found_claimed key getC setC id' pid' q e hf hct
      simp only [runClaims, hcl]
      obtain ⟨hstay, hcount⟩ := ih q e hf hg
      refine ⟨hstay, ?_⟩
      rw [countTrueFor_cons]
      simpa using hcount
    · have hfm := claimEntry_other_key key getC setC hKey eid id' pid' hid q
      simp only [runClaims]
      obtain ⟨hstay, hcount⟩ := ih _ e (by rw [hfm]; exact hf) hg
      refine ⟨hstay, ?_⟩
      rw [countTrueFor_cons]
      simpa [hid] using hcount

/-- At most one call in any claim sequence for a given id returns `true`,
provided every caller passes a nonempty pod id. -/
theorem runClaims_at_most_one
    (hKey : ∀ a s, key (setC a s) = key a)
    (hGet : ∀ a s, getC (setC a s) = some s)
    (eid : String) :
    ∀ (calls : List (String × String)) (q : List α),
    (∀ c ∈ calls, c.2 ≠ "") →
    countTrueFor calls (runClaims key getC setC q calls).1 eid ≤ 1 := by
  intro calls
  induction calls with
  | nil => intro q _; simp [runClaims, countTrueFor]
  | cons c rest ih =>
    intro q hpods
    obtain ⟨id', pid'⟩ := c
    by_cases hsucc : id' = eid ∧ (claimEntry key getC setC id' pid' q).1 = true
    · obtain ⟨hE, hT⟩ := hsucc
      subst hE
      obtain ⟨e, hf, hc⟩ := claimEntry_true_cases key getC setC id' pid' q hT
      have hset := (claimEntry_found_unclaimed key getC setC hKey id' pid' q e hf hc).2
      have hpid : pid' ≠ "" := hpods (id', pid') (by simp)
      have hrest := runClaims_claimed_stays key getC setC hKey id' pid' hpid rest
        (claimEntry key getC setC id' pid' q).2 (setC e pid') hset (hGet e pid')
      simp only [runClaims]
      rw [countTrueFor_cons]
      simp [hT, hrest.2]
    · simp only [runClaims]
      rw [countTrueFor_cons]
      have hrest := ih (claimEntry key getC setC id' pid' q).2
        (fun c hc => hpods c (by simp [hc]))
      have hzero : ¬ ((id', pid').1 = eid ∧ (claimEntry key getC setC id' pid' q).1) := by
        intro ⟨h1, h2⟩
        exact hsucc ⟨h1, h2⟩
      rw [if_neg hzero]
      simpa using hrest

end ClaimSystem

/-! ## C1 — claim uniqueness -/

/-- C1 (counterexample): with the empty string as pod id, two successive
`claim_passenger` calls for the same entry both return `true` — the first
call stores `claimed_by = ""`, which `p.get("claimed_by")` treats as falsy,
so the second caller wins again and overwrites the claim. -/
theorem C1_counterexample :
    ¬ (countTrueFor [("p1", ""), ("p1", "pod_b")]
        (run_claim_passenger [{ passenger_id := "p1", destination := "D" }]
          [("p1", ""), ("p1", "pod_b")]).1 "p1" ≤ 1) := by decide

/-- C1 (amended): in any sequence of claim calls in which every caller
passes a nonempty pod id, at most one `claim_passenger` (resp.
`claim_cargo`) call for a given entry id returns `true`; a successful call
leaves the entry claimed by the winning pod; and once an entry is claimed
by a pod with a nonempty id, it stays claimed by that pod across any later
calls, all of which return `false` for that id.  (Without the nonempty-id
restriction the property fails: `claimed_by = ""` is falsy in Python, see
the counterexample.) -/
theorem C1_claim_uniqueness_amended :
    ((∀ (calls : List (String × String)) (q : List PassengerEntry) (eid : String),
        (∀ c ∈ calls, c.2 ≠ "") →
        countTrueFor calls (run_claim_passenger q calls).1 eid ≤ 1) ∧
      (∀ (q : List PassengerEntry) (eid pod : String), pod ≠ "" →
        (claim_passenger q eid pod).1 = true →
        ∃ e, firstMatch PassengerEntry.passenger_id eid (claim_passenger q eid pod).2 =
            some e ∧ e.claimed_by = some pod) ∧
      (∀ (calls : List (String × String)) (q : List PassengerEntry)
          (eid : String) (e : PassengerEntry) (w : String), w ≠ "" →
        firstMatch PassengerEntry.passenger_id eid q = some e →
        e.claimed_by = some w →
        (∃ e', firstMatch PassengerEntry.passenger_id eid
            (run_claim_passenger q calls).2 = some e' ∧ e'.claimed_by = some w) ∧
          countTrueFor calls (run_claim_passenger q calls).1 eid = 0)) ∧
    ((∀ (calls : List (String × String)) (q : List CargoEntry) (eid : String),
        (∀ c ∈ calls, c.2 ≠ "") →
        countTrueFor calls (run_claim_cargo q calls).1 eid ≤ 1) ∧
      (∀ (q : List CargoEntry) (eid pod : String), pod ≠ "" →
        (claim_cargo q eid pod).1 = true →
        ∃ e, firstMatch CargoEntry.request_id eid (claim_cargo q eid pod).2 =
            some e ∧ e.claimed_by = some pod) ∧
      (∀ (calls : List (String × String)) (q : List CargoEntry)
          (eid : String) (e : CargoEntry) (w : String), w ≠ "" →
        firstMatch CargoEntry.request_id eid q = some e →
        e.claimed_by = some w →
        (∃ e', firstMatch CargoEntry.request_id eid
            (run_claim_cargo q calls).2 = some e' ∧ e'.claimed_by = some w) ∧
          countTrueFor calls (run_claim_cargo q calls).1 eid = 0)) := by
  refine ⟨⟨?_, ?_, ?_⟩, ⟨?_, ?_, ?_⟩⟩
  · intro calls q eid h
    exact runClaims_at_most_one PassengerEntry.passenger_id PassengerEntry.claimed_by
      (fun e p => { e with claimed_by := some p }) (fun _ _ => rfl) (fun _ _ => rfl)
      eid calls q h
  · intro q eid pod hpod htrue
    obtain ⟨e, hf, hc⟩ := claimEntry_true_cases PassengerEntry.passenger_id
      PassengerEntry.claimed_by (fun e p => { e with claimed_by := some p })
      eid pod q htrue
    exact ⟨{ e with claimed_by := some pod },
      (claimEntry_found_unclaimed PassengerEntry.passenger_id PassengerEntry.claimed_by
        (fun e p => { e with claimed_by := some p }) (fun _ _ => rfl)
        eid pod q e hf hc).2, rfl⟩
  · intro calls q eid e w hw hf hcb
    exact runClaims_claimed_stays PassengerEntry.passenger_id PassengerEntry.claimed_by
      (fun e p => { e with claimed_by := some p }) (fun _ _ => rfl) eid w hw
      calls q e hf hcb
  · intro calls q eid h
    exact runClaims_at_most_one CargoEntry.request_id CargoEntry.claimed_by
      (fun e p => { e with claimed_by := some p }) (fun _ _ => rfl) (fun _ _ => rfl)
      eid calls q h
  · intro q eid pod hpod htrue
    obtain ⟨e, hf, hc⟩ := claimEntry_true_cases CargoEntry.request_id
      CargoEntry.claimed_by (fun e p => { e with claimed_by := some p })
      eid pod q htrue
    exact ⟨{ e with claimed_by := some pod },
      (claimEntry_found_unclaimed CargoEntry.request_id CargoEntry.claimed_by
        (fun e p => { e with claimed_by := some p }) (fun _ _ => rfl)
        eid pod q e hf hc).2, rfl⟩
  · intro calls q eid e w hw hf hcb
    exact runClaims_claimed_stays CargoEntry.request_id CargoEntry.claimed_by
      (fun e p => { e with claimed_by := some p }) (fun _ _ => rfl) eid w hw
      calls q e hf hcb

/-- Witness for C1 (amended): two racing claims for the one queued
passenger by `pod_a` and `pod_b` produce at most one `true`, and `pod_a`'s
successful claim stores `claimed_by = "pod_a"`. -/
theorem C1_claim_uniqueness_witness :
    countTrueFor [("p1", "pod_a"), ("p1", "pod_b")]
        (run_claim_passenger [{ passenger_id := "p1", destination := "D" }]
          [("p1", "pod_a"), ("p1", "pod_b")]).1 "p1" ≤ 1 ∧
      (∃ e, firstMatch PassengerEntry.passenger_id "p1"
          (claim_passenger [{ passenger_id := "p1", destination := "D" }] "p1" "pod_a").2 =
            some e ∧ e.claimed_by = some "pod_a") :=
  ⟨C1_claim_uniqueness_amended.1.1 _ _ "p1" (by decide),
    C1_claim_uniqueness_amended.1.2.1 _ "p1" "pod_a" (by decide) (by decide)⟩

/-! ## C7 — claim return-value semantics -/

/-- C7 (counterexample): with the empty string as pod id, the same pod's
second claim for the same entry does not return `false` — both calls return
`true`, because the stored `claimed_by = ""` is falsy. -/
theorem C7_counterexample :
    (claim_passenger [{ passenger_id := "p1", destination := "D" }] "p1" "").1 = true ∧
    (claim_passenger
      (claim_passenger [{ passenger_id := "p1", destination := "D" }] "p1" "").2
      "p1" "").1 = true := by decide

/-- C7 (amended): for callers with a nonempty pod id, `claim_passenger`
(resp. `claim_cargo`) locates the entry by id and: claims an unclaimed
entry (sets `claimed_by`, returns `true`); returns `false` on an
already-claimed entry, leaving the queue unchanged; returns `false` when no
entry matches, leaving the queue unchanged; and the same pod claiming twice
gets `true` then `false`.  (With an empty pod id the second call returns
`true` again, see the counterexample.) -/
theorem C7_claim_semantics_amended :
    ((∀ (q : List PassengerEntry) (eid pod : String) (e : PassengerEntry),
        firstMatch PassengerEntry.passenger_id eid q = some e →
        claimedTruthy e.claimed_by = false →
        (claim_passenger q eid pod).1 = true ∧
          firstMatch PassengerEntry.passenger_id eid (claim_passenger q eid pod).2 =
            some { e with claimed_by := some pod }) ∧
      (∀ (q : List PassengerEntry) (eid pod : String) (e : PassengerEntry),
        firstMatch PassengerEntry.passenger_id eid q = some e →
        claimedTruthy e.claimed_by = true →
        claim_passenger q eid pod = (false, q)) ∧
      (∀ (q : List PassengerEntry) (eid pod : String),
        firstMatch PassengerEntry.passenger_id eid q = none →
        claim_passenger q eid pod = (false, q)) ∧
      (∀ (q : List PassengerEntry) (eid pod : String), pod ≠ "" →
        (claim_passenger q eid pod).1 = true →
        (claim_passenger (claim_passenger q eid pod).2 eid pod).1 = false)) ∧
    ((∀ (q : List CargoEntry) (eid pod : String) (e : CargoEntry),
        firstMatch CargoEntry.request_id eid q = some e →
        claimedTruthy e.claimed_by = false →
        (claim_cargo q eid pod).1 = true ∧
          firstMatch CargoEntry.request_id eid (claim_cargo q eid pod).2 =
            some { e with claimed_by := some pod }) ∧
      (∀ (q : List CargoEntry) (eid pod : String) (e : CargoEntry),
        firstMatch CargoEntry.request_id eid q = some e →
        claimedTruthy e.claimed_by = true →
        claim_cargo q eid pod = (false, q)) ∧
      (∀ (q : List CargoEntry) (eid pod : String),
        firstMatch CargoEntry.request_id eid q = none →
        claim_cargo q eid pod = (false, q)) ∧
      (∀ (q : List CargoEntry) (eid pod : String), pod ≠ "" →
        (claim_cargo q eid pod).1 = true →
        (claim_cargo (claim_cargo q eid pod).2 eid pod).1 = false)) := by
  refine ⟨⟨?_, ?_, ?_, ?_⟩, ⟨?_, ?_, ?_, ?_⟩⟩
  · intro q eid pod e hf hc
    exact claimEntry_found_unclaimed PassengerEntry.passenger_id
      PassengerEntry.claimed_by (fun e p => { e with claimed_by := some p })
      (fun _ _ => rfl) eid pod q e hf hc
  · intro q eid pod e hf hc
    exact claimEntry_found_claimed PassengerEntry.passenger_id
      PassengerEntry.claimed_by (fun e p => { e with claimed_by := some p })
      eid pod q e hf hc
  · intro q eid pod hf
    exact claimEntry_not_found PassengerEntry.passenger_id
      PassengerEntry.claimed_by (fun e p => { e with claimed_by := some p })
      eid pod q hf
  · intro q eid pod hpod htrue
    obtain ⟨e, hf, hc⟩ := claimEntry_true_cases PassengerEntry.passenger_id
      PassengerEntry.claimed_by (fun e p => { e with claimed_by := some p })
      eid pod q htrue
    have hset := (claimEntry_found_unclaimed PassengerEntry.passenger_id
      PassengerEntry.claimed_by (fun e p => { e with claimed_by := some p })
      (fun _ _ => rfl) eid pod q e hf hc).2
    have hres := claimEntry_found_claimed PassengerEntry.passenger_id
      PassengerEntry.claimed_by (fun e p => { e with claimed_by := some p })
      eid pod _ _ hset (by simpa [claimedTruthy] using hpod)
    show (claimEntry PassengerEntry.passenger_id PassengerEntry.claimed_by
      (fun e p => { e with claimed_by := some p }) eid pod
      (claimEntry PassengerEntry.passenger_id PassengerEntry.claimed_by
        (fun e p => { e with claimed_by := some p }) eid pod q).2).1 = false
    rw [hres]
  · intro q eid pod e hf hc
    exact claimEntry_found_unclaimed CargoEntry.request_id
      CargoEntry.claimed_by (fun e p => { e with claimed_by := some p })
      (fun _ _ => rfl) eid pod q e hf hc
  · intro q eid pod e hf hc
    exact claimEntry_found_claimed CargoEntry.request_id
      CargoEntry.claimed_by (fun e p => { e with claimed_by := some p })
      eid pod q e hf hc
  · intro q eid pod hf
    exact claimEntry_not_found CargoEntry.request_id
      CargoEntry.claimed_by (fun e p => { e with claimed_by := some p })
      eid pod q hf
  · intro q eid pod hpod htrue
    obtain ⟨e, hf, hc⟩ := claimEntry_true_cases CargoEntry.request_id
      CargoEntry.claimed_by (fun e p => { e with claimed_by := some p })
      eid pod q htrue
    have hset := (claimEntry_found_unclaimed CargoEntry.request_id
      CargoEntry.claimed_by (fun e p => { e with claimed_by := some p })
      (fun _ _ => rfl) eid pod q e hf hc).2
    have hres := claimEntry_found_claimed CargoEntry.request_id
      CargoEntry.claimed_by (fun e p => { e with claimed_by := some p })
      eid pod _ _ hset (by simpa [claimedTruthy] using hpod)
    show (claimEntry CargoEntry.request_id CargoEntry.claimed_by
      (fun e p => { e with claimed_by := some p }) eid pod
      (claimEntry CargoEntry.request_id CargoEntry.claimed_by
        (fun e p => { e with claimed_by := some p }) eid pod q).2).1 = false
    rw [hres]

/-- Witness for C7 (amended): `pod_a` claims the one queued passenger —
`true` then `false` on the repeat claim — and claiming a nonexistent id
returns `false`. -/
theorem C7_claim_semantics_witness :
    ((claim_passenger [{ passenger_id := "p1", destination := "D" }] "p1" "pod_a").1 = true →
      (claim_passenger
        (claim_passenger [{ passenger_id := "p1", destination := "D" }] "p1" "pod_a").2
        "p1" "pod_a").1 = false) ∧
    claim_passenger [{ passenger_id := "p1", destination := "D" }] "does_not_exist" "pod_a" =
      (false, [{ passenger_id := "p1", destination := "D" }]) :=
  ⟨C7_claim_semantics_amended.1.2.2.2 _ "p1" "pod_a" (by decide),
    C7_claim_semantics_amended.1.2.2.1 _ "does_not_exist" "pod_a" (by decide)⟩

/-! ## Pickup/delivery structural lemmas (shared by C2, C5, C6) -/

/-- The successful claims are a subset of the candidates offered. -/
theorem claimCandidates_length_le (pid : String) :
    ∀ (cs : List PassengerEntry) (q : List PassengerEntry),
    (claimCandidates pid q cs).2.length ≤ cs.length := by
  intro cs
  induction cs with
  | nil => intro q; simp [claimCandidates]
  | cons c rest ih =>
    intro q
    simp only [claimCandidates]
    split <;> simp only [List.length_cons] <;>
      first
        | exact Nat.succ_le_succ (ih _)
        | exact Nat.le_succ_of_le (ih _)

/-- Replacing a station in the injected station dict never changes which
ids resolve. -/
theorem lookup_updateStationMap (m : List (String × StationState))
    (sid : String) (st : StationState) (sid' : String) :
    (List.lookup sid' (updateStationMap m sid st)).isSome =
      (List.lookup sid' m).isSome := by
  induction m with
  | nil => rfl
  | cons p rest ih =>
    obtain ⟨k, v⟩ := p
    have hcons : updateStationMap ((k, v) :: rest) sid st =
        (if k = sid then (sid, st) else (k, v)) :: updateStationMap rest sid st := rfl
    rw [hcons]
    by_cases hk : k = sid
    · subst hk
      rw [if_pos rfl]
      by_cases hs : sid' = k
      · subst hs
        simp [List.lookup]
      · have hb : (sid' == k) = false := beq_eq_false_iff_ne.mpr hs
        simp [List.lookup, hb, ih]
    · rw [if_neg hk]
      by_cases hs : sid' = k
      · subst hs
        simp [List.lookup]
      · have hb : (sid' == k) = false := beq_eq_false_iff_ne.mpr hs
        simp [List.lookup, hb, ih]

/-- The cargo loading loop never loads past the weight capacity: the
running `current_weight + loaded_weight + item` check bounds the total. -/
theorem cargoLoadLoop_weight_le (pid : String) (cap base : ℚ) :
    ∀ (pending : List CargoReqView) (queue : Option (List CargoEntry)) (loaded : ℚ),
    base + loaded ≤ cap →
    base + (cargoLoadLoop pid cap base pending queue loaded).2.2.2 ≤ cap := by
  intro pending
  induction pending with
  | nil => intro queue loaded h; exact h
  | cons req rest ih =>
    intro queue loaded h
    simp only [cargoLoadLoop]
    by_cases hw : req.weight ≤ 0
    · rw [if_pos hw]; exact ih queue loaded h
    · rw [if_neg hw]
      by_cases hover : base + loaded + req.weight > cap
      · rw [if_pos hover]; exact ih queue loaded h
      · rw [if_neg hover]
        cases queue with
        | some q =>
          dsimp only
          by_cases hcl : (claim_cargo q req.request_id pid).1 = true
          · rw [if_pos hcl]
            dsimp only
            exact ih _ _ (by linarith [not_lt.1 hover])
          · rw [if_neg hcl]
            exact ih _ _ h
        | none =>
          dsimp only
          exact ih _ _ (by linarith [not_lt.1 hover])

/-- Every item the loading loop accepts has positive (hence nonnegative)
weight. -/
theorem cargoLoadLoop_items_nonneg (pid : String) (cap base : ℚ) :
    ∀ (pending : List CargoReqView) (queue : Option (List CargoEntry)) (loaded : ℚ),
    ∀ c ∈ (cargoLoadLoop pid cap base pending queue loaded).1, 0 ≤ c.weight := by
  intro pending
  induction pending with
  | nil => intro queue loaded c hc; cases hc
  | cons req rest ih =>
    intro queue loaded c hc
    simp only [cargoLoadLoop] at hc
    by_cases hw : req.weight ≤ 0
    · rw [if_pos hw] at hc; exact ih queue loaded c hc
    · rw [if_neg hw] at hc
      by_cases hover : base + loaded + req.weight > cap
      · rw [if_pos hover] at hc; exact ih queue loaded c hc
      · rw [if_neg hover] at hc
        cases queue with
        | some q =>
          dsimp only at hc
          by_cases hcl : (claim_cargo q req.request_id pid).1 = true
          · rw [if_pos hcl] at hc
            dsimp only at hc
            rcases List.mem_cons.1 hc with rfl | hmem
            · exact le_of_lt (not_le.1 hw)
            · exact ih _ _ c hmem
          · rw [if_neg hcl] at hc
            exact ih _ _ c hc
        | none =>
          dsimp only at hc
          rcases List.mem_cons.1 hc with rfl | hmem
          · exact le_of_lt (not_le.1 hw)
          · exact ih _ _ c hmem

/-- Passenger pickup keeps the pod a passenger pod (and likewise for every
other pickup/delivery): the payload variant never changes. -/
theorem execute_passenger_pickup_kind (pod : PodState) (sid : String) :
    isPassengerPod (execute_passenger_pickup pod sid).1 ↔ isPassengerPod pod := by
  obtain ⟨pid, st, ld, rq, cs, sp, spd, cr, ar, stns, np, pl⟩ := pod
  cases pl <;>
    simp only [execute_passenger_pickup] <;>
    (repeat' split) <;> simp_all [isPassengerPod]

/-- Passenger delivery keeps the payload variant. -/
theorem execute_passenger_delivery_kind (pod : PodState) (sid : String) :
    isPassengerPod (execute_passenger_delivery pod sid).1 ↔ isPassengerPod pod := by
  obtain ⟨pid, st, ld, rq, cs, sp, spd, cr, ar, stns, np, pl⟩ := pod
  cases pl <;>
    simp only [execute_passenger_delivery] <;>
    (repeat' split) <;> simp_all [isPassengerPod]

/-- Cargo pickup keeps the payload variant. -/
theorem execute_cargo_pickup_kind (pod : PodState) (sid : String) :
    isPassengerPod (execute_cargo_pickup pod sid).1 ↔ isPassengerPod pod := by
  obtain ⟨pid, st, ld, rq, cs, sp, spd, cr, ar, stns, np, pl⟩ := pod
  cases pl <;>
    simp only [execute_cargo_pickup] <;>
    (repeat' split) <;> simp_all [isPassengerPod]

/-- Cargo delivery keeps the payload variant. -/
theorem execute_cargo_delivery_kind (pod : PodState) (sid : String) :
    isPassengerPod (execute_cargo_delivery pod sid).1 ↔ isPassengerPod pod := by
  obtain ⟨pid, st, ld, rq, cs, sp, spd, cr, ar, stns, np, pl⟩ := pod
  cases pl <;>
    simp only [execute_cargo_delivery] <;>
    (repeat' split) <;> simp_all [isPassengerPod]

/-- A passenger pod trivially satisfies the cargo-manifest condition. -/
theorem manifestWeightsNonneg_of_passenger (pod : PodState)
    (h : isPassengerPod pod) : manifestWeightsNonneg pod := by
  rcases hpl : pod.payload with ⟨cap, ps⟩ | ⟨wc, cw, cg⟩
  · simp [manifestWeightsNonneg, hpl]
  · exact absurd h (by simp [isPassengerPod, hpl])

/-- Pickup/delivery may rewrite station queues but never adds or removes a
station from the pod's injected station dict. -/
theorem execute_passenger_pickup_stations (pod : PodState) (sid sid' : String) :
    ((execute_passenger_pickup pod sid).1.stations.lookup sid').isSome =
      ((pod.stations.lookup sid')).isSome := by
  obtain ⟨pid, st, ld, rq, cs, sp, spd, cr, ar, stns, np, pl⟩ := pod
  cases pl <;>
    simp only [execute_passenger_pickup] <;>
    (repeat' split) <;> simp_all [lookup_updateStationMap]

/-- Passenger delivery leaves the station dict alone. -/
theorem execute_passenger_delivery_stations (pod : PodState) (sid sid' : String) :
    ((execute_passenger_delivery pod sid).1.stations.lookup sid').isSome =
      ((pod.stations.lookup sid')).isSome := by
  obtain ⟨pid, st, ld, rq, cs, sp, spd, cr, ar, stns, np, pl⟩ := pod
  cases pl <;>
    simp only [execute_passenger_delivery] <;>
    (repeat' split) <;> simp_all

/-- Cargo pickup never adds or removes a station from the dict. -/
theorem execute_cargo_pickup_stations (pod : PodState) (sid sid' : String) :
    ((execute_cargo_pickup pod sid).1.stations.lookup sid').isSome =
      ((pod.stations.lookup sid')).isSome := by
  obtain ⟨pid, st, ld, rq, cs, sp, spd, cr, ar, stns, np, pl⟩ := pod
  cases pl <;>
    simp only [execute_cargo_pickup] <;>
    (repeat' split) <;> simp_all [lookup_updateStationMap]

/-- Cargo delivery leaves the station dict alone. -/
theorem execute_cargo_delivery_stations (pod : PodState) (sid sid' : String) :
    ((execute_cargo_delivery pod sid).1.stations.lookup sid').isSome =
      ((pod.stations.lookup sid')).isSome := by
  obtain ⟨pid, st, ld, rq, cs, sp, spd, cr, ar, stns, np, pl⟩ := pod
  cases pl <;>
    simp only [execute_cargo_delivery] <;>
    (repeat' split) <;> simp_all

/-- Passenger pickup respects the seat capacity whenever the arrival
station is in the pod's station dict (the claim-based path): the candidate
slice `pending[:remaining_capacity]` bounds the boarded count. -/
theorem execute_passenger_pickup_capacity (pod : PodState) (sid : String)
    (hcap : capacityInvariant pod)
    (hstation : isPassengerPod pod → (pod.stations.lookup sid).isSome) :
    capacityInvariant (execute_passenger_pickup pod sid).1 := by
  obtain ⟨pid, st, ld, rq, cs, sp, spd, cr, ar, stns, np, pl⟩ := pod
  cases pl with
  | cargo wc cw cg => exact hcap
  | passenger cap ps =>
    simp only [capacityInvariant] at hcap
    have hlk : (List.lookup sid stns).isSome :=
      hstation (by simp [isPassengerPod])
    simp only [execute_passenger_pickup]
    split
    · simpa [capacityInvariant] using hcap
    · rename_i hrem
      split
      · rename_i heq
        rw [heq] at hlk
        simp at hlk
      · rename_i stn heq
        split
        · simpa [capacityInvariant] using hcap
        · simp only [capacityInvariant, List.length_append, List.length_map]
          have h1 := claimCandidates_length_le pid
            ((get_pending_passengers stn.passenger_queue).take
              ((cap : ℤ) - ps.length).toNat) stn.passenger_queue
          have h2 : ((get_pending_passengers stn.passenger_queue).take
              ((cap : ℤ) - ps.length).toNat).length ≤
              ((cap : ℤ) - ps.length).toNat := List.length_take_le _ _
          omega

/-- Passenger delivery only removes passengers. -/
theorem execute_passenger_delivery_capacity (pod : PodState) (sid : String)
    (hcap : capacityInvariant pod) :
    capacityInvariant (execute_passenger_delivery pod sid).1 := by
  obtain ⟨pid, st, ld, rq, cs, sp, spd, cr, ar, stns, np, pl⟩ := pod
  cases pl with
  | cargo wc cw cg => exact hcap
  | passenger cap ps =>
    simp only [capacityInvariant] at hcap
    simp only [execute_passenger_delivery]
    split
    · simpa [capacityInvariant] using hcap
    · simp only [capacityInvariant]
      have := List.length_filter_le (fun p => p.destination ≠ sid) ps
      omega

/-- Cargo pickup respects the weight capacity on every path (both the
claim-based and the legacy path run the per-item weight check) and keeps
every onboard weight nonnegative. -/
theorem execute_cargo_pickup_capacity (pod : PodState) (sid : String)
    (hcap : capacityInvariant pod) (hw : manifestWeightsNonneg pod) :
    capacityInvariant (execute_cargo_pickup pod sid).1 ∧
      manifestWeightsNonneg (execute_cargo_pickup pod sid).1 := by
  obtain ⟨pid, st, ld, rq, cs, sp, spd, cr, ar, stns, np, pl⟩ := pod
  cases pl with
  | passenger cap ps => exact ⟨hcap, hw⟩
  | cargo wc cw cg =>
    simp only [capacityInvariant] at hcap
    simp only [manifestWeightsNonneg] at hw
    simp only [execute_cargo_pickup]
    split
    · exact ⟨by simpa [capacityInvariant] using hcap,
        by simpa [manifestWeightsNonneg] using hw⟩
    · split
      · split
        · exact ⟨by simpa [capacityInvariant] using hcap,
            by simpa [manifestWeightsNonneg] using hw⟩
        · split
          · exact ⟨by simpa [capacityInvariant] using hcap,
              by simpa [manifestWeightsNonneg] using hw⟩
          · constructor
            · simp only [capacityInvariant]
              have := cargoLoadLoop_weight_le pid wc cw
                ((List.filter (fun r => r.origin = sid ∧ r.rtype = "cargo") ar).map
                  (fun r => CargoReqView.mk r.request_id r.destination r.weight))
                none 0 (by simpa using hcap)
              linarith
            · simp only [manifestWeightsNonneg]
              intro c hc
              rcases List.mem_append.1 hc with hmem | hmem
              · exact hw c hmem
              · exact cargoLoadLoop_items_nonneg pid wc cw _ none 0 c hmem
      · split
        · exact ⟨by simpa [capacityInvariant] using hcap,
            by simpa [manifestWeightsNonneg] using hw⟩
        · split
          · exact ⟨by simpa [capacityInvariant] using hcap,
              by simpa [manifestWeightsNonneg] using hw⟩
          · rename_i stn heq hne hres
            constructor
            · simp only [capacityInvariant]
              have := cargoLoadLoop_weight_le pid wc cw
                ((get_pending_cargo stn.cargo_queue).map
                  (fun c => CargoReqView.mk c.request_id c.destination c.weight))
                (some stn.cargo_queue) 0 (by simpa using hcap)
              linarith
            · simp only [manifestWeightsNonneg]
              intro c hc
              rcases List.mem_append.1 hc with hmem | hmem
              · exact hw c hmem
              · exact cargoLoadLoop_items_nonneg pid wc cw _ (some stn.cargo_queue) 0 c hmem

/-- Cargo delivery only lowers the carried weight (delivered weights are
nonnegative by the manifest invariant). -/
theorem execute_cargo_delivery_capacity (pod : PodState) (sid : String)
    (hcap : capacityInvariant pod) (hw : manifestWeightsNonneg pod) :
    capacityInvariant (execute_cargo_delivery pod sid).1 ∧
      manifestWeightsNonneg (execute_cargo_delivery pod sid).1 := by
  obtain ⟨pid, st, ld, rq, cs, sp, spd, cr, ar, stns, np, pl⟩ := pod
  cases pl with
  | passenger cap ps => exact ⟨hcap, hw⟩
  | cargo wc cw cg =>
    simp only [capacityInvariant] at hcap
    simp only [manifestWeightsNonneg] at hw
    simp only [execute_cargo_delivery]
    split
    · exact ⟨by simpa [capacityInvariant] using hcap,
        by simpa [manifestWeightsNonneg] using hw⟩
    · constructor
      · simp only [capacityInvariant]
        have hsum : 0 ≤ ((cg.filter (fun c => c.destination = sid)).map
            (fun c => c.weight)).sum := by
          apply List.sum_nonneg
          intro x hx
          rcases List.mem_map.1 hx with ⟨c, hc, rfl⟩
          exact hw c (List.mem_of_mem_filter hc)
        linarith
      · simp only [manifestWeightsNonneg]
        intro c hc
        exact hw c (List.mem_of_mem_filter hc)

/-- A station arrival preserves the capacity invariant (for passenger pods:
when the arrival station is in the station dict), the manifest weight
invariant, the payload variant, and the station-dict key set. -/
theorem arrival_capacity (pod : PodState) (sid : String)
    (hcap : capacityInvariant pod) (hw : manifestWeightsNonneg pod)
    (hstation : isPassengerPod pod → (pod.stations.lookup sid).isSome) :
    capacityInvariant (handle_station_arrival pod sid).1 ∧
      manifestWeightsNonneg (handle_station_arrival pod sid).1 ∧
      (isPassengerPod (handle_station_arrival pod sid).1 ↔ isPassengerPod pod) ∧
      (∀ sid', ((handle_station_arrival pod sid).1.stations.lookup sid').isSome =
        (pod.stations.lookup sid').isSome) := by
  simp only [handle_station_arrival]
  split
  · rename_i cap ps heq
    have h1 := execute_passenger_pickup_capacity
      { pod with status := PodStatus.idle } sid hcap hstation
    have k1 := execute_passenger_pickup_kind { pod with status := PodStatus.idle } sid
    have h2 := execute_passenger_delivery_capacity
      (execute_passenger_pickup { pod with status := PodStatus.idle } sid).1 sid h1
    have k2 := execute_passenger_delivery_kind
      (execute_passenger_pickup { pod with status := PodStatus.idle } sid).1 sid
    have s1 := fun sid' =>
      execute_passenger_pickup_stations { pod with status := PodStatus.idle } sid sid'
    have s2 := fun sid' => execute_passenger_delivery_stations
      (execute_passenger_pickup { pod with status := PodStatus.idle } sid).1 sid sid'
    have hkind : isPassengerPod { pod with status := PodStatus.idle } := by
      simp [isPassengerPod, heq]
    refine ⟨h2, ?_, ?_, fun sid' => (s2 sid').trans (s1 sid')⟩
    · exact manifestWeightsNonneg_of_passenger _ (k2.mpr (k1.mpr hkind))
    · exact k2.trans k1
  · rename_i wc cw cg heq
    have hc1 := execute_cargo_pickup_capacity
      { pod with status := PodStatus.idle,
                 location_descriptor := { location_type := LocType.station, node_id := sid,
                                          coordinate := pod.location_descriptor.coordinate } }
      sid hcap hw
    have hc2 := execute_cargo_delivery_capacity
      (execute_cargo_pickup
        { pod with status := PodStatus.idle,
                   location_descriptor := { location_type := LocType.station, node_id := sid,
                                            coordinate := pod.location_descriptor.coordinate } }
        sid).1 sid hc1.1 hc1.2
    have k1 := execute_cargo_pickup_kind
      { pod with status := PodStatus.idle,
                 location_descriptor := { location_type := LocType.station, node_id := sid,
                                          coordinate := pod.location_descriptor.coordinate } } sid
    have k2 := execute_cargo_delivery_kind
      (execute_cargo_pickup
        { pod with status := PodStatus.idle,
                   location_descriptor := { location_type := LocType.station, node_id := sid,
                                            coordinate := pod.location_descriptor.coordinate } }
        sid).1 sid
    have s1 := fun sid' => execute_cargo_pickup_stations
      { pod with status := PodStatus.idle,
                 location_descriptor := { location_type := LocType.station, node_id := sid,
                                          coordinate := pod.location_descriptor.coordinate } }
      sid sid'
    have s2 := fun sid' => execute_cargo_delivery_stations
      (execute_cargo_pickup
        { pod with status := PodStatus.idle,
                   location_descriptor := { location_type := LocType.station, node_id := sid,
                                            coordinate := pod.location_descriptor.coordinate } }
        sid).1 sid sid'
    exact ⟨hc2.1, hc2.2, k2.trans k1, fun sid' => (s2 sid').trans (s1 sid')⟩

/-- C5 (counterexample): a passenger pod holding no station reference for
the arrival station falls back to the legacy `_available_requests` path,
which boards every matching request without truncating to capacity: with
capacity 4 and five seeded requests the pod ends up with five passengers. -/
theorem C5_counterexample :
    ¬ capacityInvariant (execute_passenger_pickup podC5 "s1").1 := by
  have h : (execute_passenger_pickup podC5 "s1").1.payload =
      PodPayload.passenger 4
        [⟨"p0", "s2"⟩, ⟨"p1", "s2"⟩, ⟨"p2", "s2"⟩, ⟨"p3", "s2"⟩, ⟨"p4", "s2"⟩] := by
    decide
  intro hinv
  unfold capacityInvariant at hinv
  rw [h] at hinv
  simp at hinv

/-- C5 (amended): after any sequence of station visits (each running the
type-specific pickup and delivery), a `CargoPod` never exceeds its weight
capacity, and a `PassengerPod` never exceeds its seat capacity provided
every visited station is present in the pod's injected station dict (the
claim-based path; the legacy no-reference fallback can overshoot, see the
counterexample). -/
theorem C5_capacity_invariant_amended (pod : PodState) (sids : List String)
    (hcap : capacityInvariant pod) (hw : manifestWeightsNonneg pod)
    (hst : isPassengerPod pod → ∀ sid ∈ sids, (pod.stations.lookup sid).isSome) :
    capacityInvariant (applyArrivals pod sids) := by
  induction sids generalizing pod with
  | nil => exact hcap
  | cons sid rest ih =>
    have harr := arrival_capacity pod sid hcap hw
      (fun hp => hst hp sid (by simp))
    simp only [applyArrivals, List.foldl_cons]
    exact ih (handle_station_arrival pod sid).1 harr.1 harr.2.1
      (fun hp sid' hmem => by
        rw [harr.2.2.2 sid']
        exact hst (harr.2.2.1.mp hp) sid' (by simp [hmem]))

/-- Witness for C5 (amended): the pod with a station reference and six
waiting passengers boards through the claim path and stays within its four
seats. -/
theorem C5_capacity_invariant_witness :
    capacityInvariant (applyArrivals podC5w ["s1"]) :=
  C5_capacity_invariant_amended podC5w ["s1"]
    (by simp [capacityInvariant, podC5w])
    (by simp [manifestWeightsNonneg, podC5w])
    (by
      intro _ sid hmem
      simp only [List.mem_singleton] at hmem
      subst hmem
      simp [podC5w, List.lookup])

/-! ## C2 — movement conservation / tick-size independence -/

/-- In the bare movement scenario (no station references, no seeded
requests, empty manifest) a station arrival only sets the status to `IDLE`
and, for a cargo pod, snaps the location descriptor: nothing else moves. -/
theorem arrival_bare (pod : PodState) (sid : String)
    (hs : pod.stations = []) (ha : pod.available_requests = [])
    (hm : manifestEmpty pod) :
    ∃ ld', (handle_station_arrival pod sid).1 =
      { pod with status := PodStatus.idle, location_descriptor := ld' } ∧
      (∀ cap ps, pod.payload = PodPayload.passenger cap ps →
        ld' = pod.location_descriptor) := by
  obtain ⟨pid, st, ld, rq, cs, sp, spd, cr, ar, stns, np, pl⟩ := pod
  simp only at hs ha
  subst hs ha
  cases pl with
  | passenger cap ps =>
    simp only [manifestEmpty, manifestEmptyP] at hm
    subst hm
    refine ⟨ld, ?_, fun _ _ _ => rfl⟩
    simp [handle_station_arrival, execute_passenger_pickup,
      execute_passenger_delivery, List.lookup]
  | cargo wc cw cg =>
    simp only [manifestEmpty, manifestEmptyP] at hm
    subst hm
    refine ⟨{ location_type := LocType.station, node_id := sid,
              coordinate := ld.coordinate }, ?_, fun _ _ h => by cases h⟩
    simp [handle_station_arrival, execute_cargo_pickup,
      execute_cargo_delivery, List.lookup]

/-- One unrolling of the integrator loop (the `while` body of
`Pod.update`). -/
theorem movementLoop_succ (fuel : ℕ) (dist : ℚ) (pod : PodState) :
    movementLoop (fuel + 1) dist pod =
      if dist ≤ 0 then (pod, [], false)
      else
        match pod.current_segment with
        | none =>
          let r := handle_route_completion pod
          (r.1, r.2, true)
        | some seg =>
          let remaining := seg.length - pod.segment_progress
          if dist ≥ remaining then
            let arrived := seg.end_node
            let p1 := advance_segment pod
            match p1.current_segment with
            | none =>
              let r2 := handle_station_arrival p1 arrived
              if r2.1.status = PodStatus.loading ∨ r2.1.status = PodStatus.unloading then
                (r2.1, r2.2, true)
              else
                let r3 := movementLoop fuel (dist - remaining) r2.1
                (r3.1, r2.2 ++ r3.2.1, r3.2.2)
            | some _ => movementLoop fuel (dist - remaining) p1
          else
            ({ pod with segment_progress := pod.segment_progress + dist }, [], false) := rfl

/-- A tick that consumes strictly less than the whole remaining two-edge
route moves the pod forward by exactly `speed × dt`, landing at the
interpolated position `c + S·d` along the concatenated route. -/
theorem twoEdge_update_partial (pid : String) (ld : LocationDescriptor)
    (e1 e2 : EdgeSegment) (S : ℚ) (rt : Option Route)
    (net : List (String × Coordinate)) (pl : PodPayload) (c d : ℚ)
    (hl1 : 0 < e1.length) (hl2 : 0 < e2.length) (hS : 0 < S) (hd : 0 < d)
    (hc0 : 0 ≤ c) (hcap : e1.length + e2.length ≤ 100)
    (hlt : c + S * d < e1.length + e2.length) :
    ∃ ld', (Pod.update (twoEdgeState pid ld e1 e2 S rt net pl c) d).1 =
        twoEdgeState pid ld' e1 e2 S rt net pl (c + S * d) ∧
      ld'.location_type = LocType.edge := by
  have hSd : 0 < S * d := mul_pos hS hd
  have hndist : ¬ S * d ≤ 0 := not_le.2 hSd
  have hmin : min (S * d) 100 = S * d := min_eq_left (by linarith)
  by_cases hcase : c < e1.length
  · have htwo : twoEdgeState pid ld e1 e2 S rt net pl c =
        { pod_id := pid, status := PodStatus.en_route, location_descriptor := ld,
          route_queue := [e2], current_segment := some e1, segment_progress := c,
          speed := S, current_route := rt, available_requests := [], stations := [],
          network_positions := net, payload := pl } := by
      unfold twoEdgeState
      rw [if_pos hcase]
    by_cases hov : S * d ≥ e1.length - c
    · by_cases hz : S * d - (e1.length - c) ≤ 0
      · -- lands exactly on the intermediate node: now on `e2` at progress 0
        have hceq : c + S * d = e1.length := by linarith
        have hnot : ¬ c + S * d < e1.length := by rw [hceq]; exact lt_irrefl _
        refine ⟨⟨LocType.edge, "", e2.segment_id, e2.get_point_at_distance 0, 0⟩,
          ?_, rfl⟩
        rw [htwo]
        unfold Pod.update
        rw [if_neg (by simp)]
        dsimp only
        rw [hmin, movementLoop_succ, if_neg hndist]
        dsimp only
        rw [if_pos hov]
        simp only [advance_segment]
        rw [movementLoop_succ, if_pos hz]
        dsimp only
        rw [if_neg (show ¬ false = true by simp)]
        simp only [update_location_descriptor]
        unfold twoEdgeState
        rw [if_neg hnot]
        simp only [PodState.mk.injEq, and_true, true_and]
        linarith
      · -- crosses the intermediate node and continues onto `e2`
        have hnot : ¬ c + S * d < e1.length := by linarith
        refine ⟨⟨LocType.edge, "", e2.segment_id,
          e2.get_point_at_distance (0 + (S * d - (e1.length - c))),
          0 + (S * d - (e1.length - c))⟩, ?_, rfl⟩
        rw [htwo]
        unfold Pod.update
        rw [if_neg (by simp)]
        dsimp only
        rw [hmin, movementLoop_succ, if_neg hndist]
        dsimp only
        rw [if_pos hov]
        simp only [advance_segment]
        rw [movementLoop_succ, if_neg hz]
        dsimp only
        rw [if_neg (show ¬ S * d - (e1.length - c) ≥ e2.length - 0 by
          simp only [sub_zero]; linarith)]
        dsimp only
        rw [if_neg (show ¬ false = true by simp)]
        simp only [update_location_descriptor]
        unfold twoEdgeState
        rw [if_neg hnot]
        simp only [PodState.mk.injEq, and_true, true_and]
        linarith
    · -- stays on `e1`
      have hlt1 : c + S * d < e1.length := by
        have := not_le.1 hov
        linarith
      refine ⟨⟨LocType.edge, "", e1.segment_id,
        e1.get_point_at_distance (c + S * d), c + S * d⟩, ?_, rfl⟩
      rw [htwo]
      unfold Pod.update
      rw [if_neg (by simp)]
      dsimp only
      rw [hmin, movementLoop_succ, if_neg hndist]
      dsimp only
      rw [if_neg hov]
      dsimp only
      rw [if_neg (show ¬ false = true by simp)]
      simp only [update_location_descriptor]
      unfold twoEdgeState
      rw [if_pos hlt1]
  · -- already on `e2`
    have htwo : twoEdgeState pid ld e1 e2 S rt net pl c =
        { pod_id := pid, status := PodStatus.en_route, location_descriptor := ld,
          route_queue := [], current_segment := some e2,
          segment_progress := c - e1.length,
          speed := S, current_route := rt, available_requests := [], stations := [],
          network_positions := net, payload := pl } := by
      unfold twoEdgeState
      rw [if_neg hcase]
    have hnot : ¬ c + S * d < e1.length := by
      have := not_lt.1 hcase
      linarith
    refine ⟨⟨LocType.edge, "", e2.segment_id,
      e2.get_point_at_distance (c - e1.length + S * d), c - e1.length + S * d⟩,
      ?_, rfl⟩
    rw [htwo]
    unfold Pod.update
    rw [if_neg (by simp)]
    dsimp only
    rw [hmin, movementLoop_succ, if_neg hndist]
    dsimp only
    rw [if_neg (show ¬ S * d ≥ e2.length - (c - e1.length) by
      have := not_lt.1 hcase
      linarith)]
    dsimp only
    rw [if_neg (show ¬ false = true by simp)]
    simp only [update_location_descriptor]
    unfold twoEdgeState
    rw [if_neg hnot]
    simp only [PodState.mk.injEq, and_true, true_and]
    linarith

/-- A tick that consumes exactly the whole remaining route leaves the pod
with no current segment, an empty queue, and status `IDLE` (set by the
station-arrival handler at the final node — `_handle_route_completion`
itself never fires at the exact boundary); for a passenger pod the
location descriptor is left untouched. -/
theorem twoEdge_update_final (pid : String) (ld : LocationDescriptor)
    (e1 e2 : EdgeSegment) (S : ℚ) (rt : Option Route)
    (net : List (String × Coordinate)) (pl : PodPayload) (c d : ℚ)
    (hl2 : 0 < e2.length) (hS : 0 < S) (hd : 0 < d)
    (hc0 : 0 ≤ c) (hcap : e1.length + e2.length ≤ 100)
    (hm : manifestEmptyP pl)
    (heq : c + S * d = e1.length + e2.length) :
    (Pod.update (twoEdgeState pid ld e1 e2 S rt net pl c) d).1.route_queue = [] ∧
    (Pod.update (twoEdgeState pid ld e1 e2 S rt net pl c) d).1.current_segment = none ∧
    (Pod.update (twoEdgeState pid ld e1 e2 S rt net pl c) d).1.status = PodStatus.idle ∧
    (∀ cap ps, pl = PodPayload.passenger cap ps →
      (Pod.update (twoEdgeState pid ld e1 e2 S rt net pl c) d).1.location_descriptor = ld) := by
  have hSd : 0 < S * d := mul_pos hS hd
  have hndist : ¬ S * d ≤ 0 := not_le.2 hSd
  have hmin : min (S * d) 100 = S * d := min_eq_left (by linarith)
  by_cases hcase : c < e1.length
  · have htwo : twoEdgeState pid ld e1 e2 S rt net pl c =
        { pod_id := pid, status := PodStatus.en_route, location_descriptor := ld,
          route_queue := [e2], current_segment := some e1, segment_progress := c,
          speed := S, current_route := rt, available_requests := [], stations := [],
          network_positions := net, payload := pl } := by
      unfold twoEdgeState
      rw [if_pos hcase]
    have hov : S * d ≥ e1.length - c := by linarith
    have hz : ¬ S * d - (e1.length - c) ≤ 0 := by
      intro h
      linarith
    have hov2 : S * d - (e1.length - c) ≥ e2.length - 0 := by
      simp only [sub_zero]
      linarith
    have hz3 : S * d - (e1.length - c) - (e2.length - 0) ≤ 0 := by
      simp only [sub_zero]
      linarith
    obtain ⟨ld2, hbare, hldpass⟩ := arrival_bare
      { pod_id := pid, status := PodStatus.en_route, location_descriptor := ld,
        route_queue := [], current_segment := none, segment_progress := 0,
        speed := S, current_route := rt, available_requests := [], stations := [],
        network_positions := net, payload := pl } e2.end_node rfl rfl hm
    rw [htwo]
    unfold Pod.update
    rw [if_neg (by simp)]
    dsimp only
    rw [hmin, movementLoop_succ, if_neg hndist]
    dsimp only
    rw [if_pos hov]
    simp only [advance_segment]
    rw [movementLoop_succ, if_neg hz]
    dsimp only
    rw [if_pos hov2]
    simp only [advance_segment]
    dsimp only at hbare
    rw [hbare]
    dsimp only
    rw [if_neg (show ¬ (PodStatus.idle = PodStatus.loading ∨
      PodStatus.idle = PodStatus.unloading) by simp)]
    simp only [List.length_cons, List.length_nil]
    rw [movementLoop_succ, if_pos hz3]
    dsimp only
    rw [if_neg (show ¬ false = true by simp)]
    simp only [update_location_descriptor]
    exact ⟨trivial, trivial, trivial, fun cap ps hpl => hldpass cap ps hpl⟩
  · have htwo : twoEdgeState pid ld e1 e2 S rt net pl c =
        { pod_id := pid, status := PodStatus.en_route, location_descriptor := ld,
          route_queue := [], current_segment := some e2,
          segment_progress := c - e1.length,
          speed := S, current_route := rt, available_requests := [], stations := [],
          network_positions := net, payload := pl } := by
      unfold twoEdgeState
      rw [if_neg hcase]
    have hge : c - e1.length ≥ 0 := by
      have := not_lt.1 hcase
      linarith
    have hov : S * d ≥ e2.length - (c - e1.length) := by linarith
    have hz3 : S * d - (e2.length - (c - e1.length)) ≤ 0 := by linarith
    obtain ⟨ld2, hbare, hldpass⟩ := arrival_bare
      { pod_id := pid, status := PodStatus.en_route, location_descriptor := ld,
        route_queue := [], current_segment := none,
        segment_progress := c - e1.length,
        speed := S, current_route := rt, available_requests := [], stations := [],
        network_positions := net, payload := pl } e2.end_node rfl rfl hm
    rw [htwo]
    unfold Pod.update
    rw [if_neg (by simp)]
    dsimp only
    rw [hmin, movementLoop_succ, if_neg hndist]
    dsimp only
    rw [if_pos hov]
    simp only [advance_segment]
    dsimp only at hbare
    rw [hbare]
    dsimp only
    rw [if_neg (show ¬ (PodStatus.idle = PodStatus.loading ∨
      PodStatus.idle = PodStatus.unloading) by simp)]
    simp only [List.length_cons, List.length_nil]
    rw [movementLoop_succ, if_pos hz3]
    dsimp only
    rw [if_neg (show ¬ false = true by simp)]
    simp only [update_location_descriptor]
    exact ⟨trivial, trivial, trivial, fun cap ps hpl => hldpass cap ps hpl⟩

/-- Folding `Pod.update` over any nonempty list of positive time steps
that together consume exactly the remaining two-edge route drains the
queue and ends `IDLE`, from any starting offset `c`. -/
theorem twoEdge_runs_aux (e1 e2 : EdgeSegment) (S : ℚ)
    (hl1 : 0 < e1.length) (hl2 : 0 < e2.length) (hS : 0 < S)
    (hcap : e1.length + e2.length ≤ 100) (pid : String)
    (rt : Option Route) (net : List (String × Coordinate)) (pl : PodPayload)
    (hm : manifestEmptyP pl) :
    ∀ (dts : List ℚ) (ld : LocationDescriptor) (c : ℚ), dts ≠ [] →
      (∀ d ∈ dts, 0 < d) → 0 ≤ c →
      c + S * dts.sum = e1.length + e2.length →
      (Pod.updateRuns (twoEdgeState pid ld e1 e2 S rt net pl c) dts).route_queue = [] ∧
      (Pod.updateRuns (twoEdgeState pid ld e1 e2 S rt net pl c) dts).current_segment = none ∧
      (Pod.updateRuns (twoEdgeState pid ld e1 e2 S rt net pl c) dts).status = PodStatus.idle := by
  intro dts
  induction dts with
  | nil => intro ld c hne; exact absurd rfl hne
  | cons d rest ih =>
    intro ld c _ hpos hc0 hsum
    have hd : 0 < d := hpos d (List.mem_cons_self _ _)
    cases rest with
    | nil =>
      have hsum' : c + S * d = e1.length + e2.length := by
        have hx : (d :: ([] : List ℚ)).sum = d := by simp
        rw [hx] at hsum
        exact hsum
      have h := twoEdge_update_final pid ld e1 e2 S rt net pl c d
        hl2 hS hd hc0 hcap hm hsum'
      have hrun : Pod.updateRuns (twoEdgeState pid ld e1 e2 S rt net pl c) [d]
          = (Pod.update (twoEdgeState pid ld e1 e2 S rt net pl c) d).1 := rfl
      rw [hrun]
      exact ⟨h.1, h.2.1, h.2.2.1⟩
    | cons d2 rest2 =>
      have hpos2 : ∀ x ∈ d2 :: rest2, 0 < x :=
        fun x hx => hpos x (List.mem_cons_of_mem _ hx)
      have hsum2 : (c + S * d) + S * (d2 :: rest2).sum = e1.length + e2.length := by
        rw [List.sum_cons, mul_add] at hsum
        linarith
      have hsumpos : 0 < (d2 :: rest2).sum := by
        have h2 : 0 < d2 := hpos2 d2 (List.mem_cons_self _ _)
        have hr : 0 ≤ rest2.sum :=
          List.sum_nonneg (fun x hx => le_of_lt (hpos2 x (List.mem_cons_of_mem _ hx)))
        rw [List.sum_cons]
        linarith
      have hlt : c + S * d < e1.length + e2.length := by
        have := mul_pos hS hsumpos
        linarith
      obtain ⟨ld', heq, _⟩ := twoEdge_update_partial pid ld e1 e2 S rt net pl c d
        hl1 hl2 hS hd hc0 hcap hlt
      have hrun : Pod.updateRuns (twoEdgeState pid ld e1 e2 S rt net pl c) (d :: d2 :: rest2)
          = Pod.updateRuns (twoEdgeState pid ld' e1 e2 S rt net pl (c + S * d)) (d2 :: rest2) := by
        simp only [Pod.updateRuns, List.foldl]
        rw [heq]
      rw [hrun]
      have hc0' : 0 ≤ c + S * d := by
        have := mul_pos hS hd
        linarith
      exact ih ld' (c + S * d) (by simp) hpos2 hc0' hsum2

/-- C2 (amended).  For a *bare* pod `EN_ROUTE` on a hydrated two-edge
route of lengths `L1, L2 > 0` at speed `S > 0` — bare meaning an empty
manifest, no station references and no seeded requests (the fields
`twoEdgeState` fixes), so a station arrival triggers no boarding or
delivery; a pod delivering at the final station instead ends the exact
tick `EN_ROUTE`, not `IDLE` — and with `L1 + L2 ≤ 100`, since `update`
caps each tick's distance at `min(speed·dt, 100)` so a longer route's
single exact call is truncated mid-route and stays `EN_ROUTE`: any
nonempty sequence of positive time steps whose total equals `(L1+L2)/S`
— the single call `update((L1+L2)/S)` included — leaves the pod with an
empty route queue, no current segment, and status `IDLE`.  (The original
claim's further assertion that every such split ends at the *same final
location* as the single call is false — see the counterexample: the
exact-boundary tick path skips the final location refresh, so the single
call keeps the stale station descriptor while a split ends with an edge
descriptor.) -/
theorem C2_movement_conservation_amended (pid : String) (ld : LocationDescriptor)
    (e1 e2 : EdgeSegment) (S : ℚ) (rt : Option Route)
    (net : List (String × Coordinate)) (pl : PodPayload) (dts : List ℚ)
    (hl1 : 0 < e1.length) (hl2 : 0 < e2.length) (hS : 0 < S)
    (hcap : e1.length + e2.length ≤ 100) (hm : manifestEmptyP pl)
    (hne : dts ≠ []) (hpos : ∀ d ∈ dts, 0 < d)
    (hsum : S * dts.sum = e1.length + e2.length) :
    (Pod.updateRuns (twoEdgeState pid ld e1 e2 S rt net pl 0) dts).route_queue = [] ∧
    (Pod.updateRuns (twoEdgeState pid ld e1 e2 S rt net pl 0) dts).current_segment = none ∧
    (Pod.updateRuns (twoEdgeState pid ld e1 e2 S rt net pl 0) dts).status = PodStatus.idle :=
  twoEdge_runs_aux e1 e2 S hl1 hl2 hS hcap pid rt net pl hm dts ld 0 hne hpos le_rfl
    (by rw [zero_add]; exact hsum)

/-- C2 witness: the repository's own two-edge network (`s1→s2→s3`, 10 m
each, speed 20) driven by two half ticks of `1/2` ends `IDLE`. -/
theorem C2_movement_conservation_witness :
    (Pod.updateRuns (twoEdgeState "pod_test"
        { location_type := LocType.station, node_id := "station_001" }
        edgeA edgeB 20 none [] (PodPayload.passenger 4 []) 0)
      [1/2, 1/2]).status = PodStatus.idle :=
  (C2_movement_conservation_amended "pod_test"
    { location_type := LocType.station, node_id := "station_001" }
    edgeA edgeB 20 none [] (PodPayload.passenger 4 []) [1/2, 1/2]
    (by norm_num [edgeA]) (by norm_num [edgeB]) (by norm_num)
    (by norm_num [edgeA, edgeB]) rfl (by simp)
    (by intro x hx
        rcases List.mem_cons.1 hx with h | h
        · rw [h]; norm_num
        · rw [List.mem_singleton.1 h]; norm_num)
    (by norm_num [edgeA, edgeB])).2.2

/-- C2 counterexample (tick-size independence of the final location
fails): on the repository's own two-edge test network, the single call
`update(1)` ends with the untouched station descriptor, while the split
`update(1/2); update(1/2)` ends with an edge descriptor — different
final locations. -/
theorem C2_counterexample :
    (Pod.update podC2 1).1.location_descriptor ≠
      (Pod.updateRuns podC2 [1/2, 1/2]).location_descriptor := by
  have hpod : podC2 = twoEdgeState "pod_test"
      { location_type := LocType.station, node_id := "station_001" }
      edgeA edgeB 20 none [] (PodPayload.passenger 4 []) 0 := by
    unfold podC2 twoEdgeState
    rw [if_pos (by norm_num [edgeA])]
  have h1 := twoEdge_update_final "pod_test"
    { location_type := LocType.station, node_id := "station_001" }
    edgeA edgeB 20 none [] (PodPayload.passenger 4 []) 0 1
    (by norm_num [edgeB]) (by norm_num) (by norm_num) le_rfl
    (by norm_num [edgeA, edgeB]) rfl (by norm_num [edgeA, edgeB])
  have hsingle : (Pod.update podC2 1).1.location_descriptor =
      { location_type := LocType.station, node_id := "station_001" } := by
    rw [hpod]
    exact h1.2.2.2 4 [] rfl
  obtain ⟨ld', heq, htype⟩ := twoEdge_update_partial "pod_test"
    { location_type := LocType.station, node_id := "station_001" }
    edgeA edgeB 20 none [] (PodPayload.passenger 4 []) 0 (1/2)
    (by norm_num [edgeA]) (by norm_num [edgeB]) (by norm_num) (by norm_num)
    le_rfl (by norm_num [edgeA, edgeB]) (by norm_num [edgeA, edgeB])
  have h2 := twoEdge_update_final "pod_test" ld'
    edgeA edgeB 20 none [] (PodPayload.passenger 4 []) (0 + 20 * (1/2)) (1/2)
    (by norm_num [edgeB]) (by norm_num) (by norm_num) (by norm_num)
    (by norm_num [edgeA, edgeB]) rfl (by norm_num [edgeA, edgeB])
  have hsplit : (Pod.updateRuns podC2 [1/2, 1/2]).location_descriptor = ld' := by
    rw [hpod]
    have hrun : Pod.updateRuns (twoEdgeState "pod_test"
        { location_type := LocType.station, node_id := "station_001" }
        edgeA edgeB 20 none [] (PodPayload.passenger 4 []) 0) [1/2, 1/2]
        = (Pod.update (twoEdgeState "pod_test" ld'
            edgeA edgeB 20 none [] (PodPayload.passenger 4 []) (0 + 20 * (1/2))) (1/2)).1 := by
      simp only [Pod.updateRuns, List.foldl]
      rw [heq]
    rw [hrun]
    exact h2.2.2.2 4 [] rfl
  rw [hsingle, hsplit]
  intro hcontra
  have hty : LocType.station = ld'.location_type := congrArg LocationDescriptor.location_type hcontra
  rw [htype] at hty
  exact LocType.noConfusion hty

end Aexis
